import Mathlib

/-!
Verification of the lazer-mazer real-time session engine.

The definitions below are a shallow embedding of the TypeScript sources:
  * src/src/types/LaserConfig.ts        — configuration data model
  * src/src/context/LaserConfigContext.tsx — configuration operations
    (addLaser, addHighscore, deleteAllHighscores)
  * src/src/utils/gameUtils.ts          — GameStateManager global flag
  * src/src/hooks/useGameLogic.ts       — the session engine (useGameLogic)

Modelling conventions:
  * The engine is single-threaded and event-driven (sensor frames, button
    edges and timer callbacks all arrive as callbacks into one mutable
    instance), so it is embedded as a state record `GameState` and a step
    function `step : GameState -> GEvent -> GameState`.  React state setters
    are modelled as immediate field updates, refs as ordinary fields.
  * Scheduled timeouts (blink end, visual blink end, reactivation end, the
    deferred handleGameOver) are modelled by pending-counter fields; the
    corresponding timer event only has an effect while its counter is
    positive, and clearing the timeout group zeroes the counter.
  * A raw sensor reading is `Option Rat`: `some v` is a numeric JavaScript
    value, `none` stands for a value whose numeric coercion is NaN
    (JS comparisons with NaN are false, so a NaN reading never counts as
    broken).
  * `acceptedTriggers` instruments the per-beam accepted-trigger
    notifications (one per Armed-to-Blinking transition); it mirrors the
    increments of `triggeredCount` per beam and changes in no other place.
  * The 50 ms reactivation-progress display interval and the audio calls
    are display-only and are not modelled.
-/

namespace LazerMazer

/-- A raw entry of an incoming sensor frame: `some v` is a numeric value,
`none` a non-numeric payload entry (NaN under JS arithmetic). -/
abbrev Reading := Option ℚ

/-- src/src/types/LaserConfig.ts, interface LaserConfig. -/
structure LaserConf where
  id : String
  name : String
  sensitivity : ℚ
  order : Nat
  enabled : Bool
  sensorIndex : Nat
deriving Repr, DecidableEq

/-- src/src/types/LaserConfig.ts, interface GameSettings. -/
structure GameSettings where
  maxAllowedTouches : Nat
  reactivateLasers : Bool
  reactivationTimeSeconds : ℚ
deriving Repr, DecidableEq

/-- src/src/types/LaserConfig.ts, interface ArduinoSettings. -/
structure ArduinoSettings where
  port : String
  baudRate : Nat
  isConnected : Bool
  autoConnectEnabled : Option Bool
deriving Repr, DecidableEq

/-- src/src/types/LaserConfig.ts, interface SoundSettings. -/
structure SoundSettings where
  masterVolume : ℚ
  effectVolume : ℚ
  ambientSound : Bool
  effectsSound : Bool
deriving Repr, DecidableEq

/-- src/src/types/LaserConfig.ts, interface Highscore. -/
structure Highscore where
  id : String
  name : String
  time : Nat
  date : String
  touchedLasers : Nat
  maxAllowedTouches : Nat
  reactivationEnabled : Bool
  reactivationTimeSeconds : ℚ
deriving Repr, DecidableEq

/-- src/src/types/LaserConfig.ts, interface LaserConfigState. -/
structure LaserConfigState where
  lasers : List LaserConf
  gameSettings : GameSettings
  arduinoSettings : ArduinoSettings
  soundSettings : SoundSettings
  highscores : List Highscore
deriving Repr, DecidableEq

/-- src/src/types/LaserConfig.ts, defaultLaserConfig. -/
def defaultLaserConfig : LaserConfigState :=
  { lasers :=
      [ { id := "1", name := "Laser 1", sensitivity := 50, order := 0,
          enabled := true, sensorIndex := 0 },
        { id := "2", name := "Laser 2", sensitivity := 50, order := 1,
          enabled := true, sensorIndex := 1 },
        { id := "3", name := "Laser 3", sensitivity := 50, order := 2,
          enabled := true, sensorIndex := 2 } ],
    gameSettings :=
      { maxAllowedTouches := 3, reactivateLasers := false,
        reactivationTimeSeconds := 5 },
    arduinoSettings :=
      { port := "", baudRate := 115200, isConnected := false,
        autoConnectEnabled := some false },
    soundSettings :=
      { masterVolume := 20, effectVolume := 70, ambientSound := true,
        effectsSound := true },
    highscores := [] }

/-- The payload handed to addHighscore by handleSaveScore
(everything of a Highscore except the generated id and date). -/
structure HighscoreData where
  name : String
  time : Nat
  touchedLasers : Nat
  maxAllowedTouches : Nat
  reactivationEnabled : Bool
  reactivationTimeSeconds : ℚ
deriving Repr, DecidableEq

/-- src/src/context/LaserConfigContext.tsx, addHighscore.  The generated id
(`Date.now()`) and ISO date string are environment inputs and passed as
parameters. -/
def addHighscore (c : LaserConfigState) (newId date : String)
    (d : HighscoreData) : LaserConfigState :=
  { c with highscores := c.highscores ++
      [ { id := newId, name := d.name, time := d.time, date := date,
          touchedLasers := d.touchedLasers,
          maxAllowedTouches := d.maxAllowedTouches,
          reactivationEnabled := d.reactivationEnabled,
          reactivationTimeSeconds := d.reactivationTimeSeconds } ] }

/-- src/src/context/LaserConfigContext.tsx, deleteAllHighscores. -/
def deleteAllHighscores (c : LaserConfigState) : LaserConfigState :=
  { c with highscores := [] }

/-- The `while (usedIndices.includes(newSensorIndex)) newSensorIndex++`
loop of addLaser, with explicit fuel (the loop needs at most
`usedIndices.length + 1` iterations). -/
def freeIndexLoop (used : List Nat) : Nat → Nat → Nat
  | 0, n => n
  | fuel + 1, n => if n ∈ used then freeIndexLoop used fuel (n + 1) else n

/-- The sensor index addLaser assigns: the first index not in `used`. -/
def firstFreeSensorIndex (used : List Nat) : Nat :=
  freeIndexLoop used (used.length + 1) 0

/-- src/src/context/LaserConfigContext.tsx, addLaser.  The generated id
(`Date.now()`) is an environment input and passed as a parameter. -/
def addLaser (c : LaserConfigState) (newId : String) : LaserConfigState :=
  let usedIndices := c.lasers.map (fun l => l.sensorIndex)
  let newSensorIndex := firstFreeSensorIndex usedIndices
  let newLaser : LaserConf :=
    { id := newId,
      name := "Laser " ++ toString (c.lasers.length + 1),
      sensitivity := 50,
      order := c.lasers.length,
      enabled := true,
      sensorIndex := newSensorIndex }
  { c with lasers := c.lasers ++ [newLaser] }

/-! ## The session engine (src/src/hooks/useGameLogic.ts) -/

/-- The whole mutable state of one useGameLogic instance, together with the
global GameStateManager flag (src/src/utils/gameUtils.ts) and the
configuration context it reads and (through addHighscore) writes.

React useState hooks and refs become plain fields.  The per-beam maps
(laserActivationMap, blinkingLasers, reactivatingLasers) are functions from
laser id to their value, a missing key reading as the JS falsy default.
`pendingBlink`/`pendingVisual` count the not-yet-fired, not-yet-cleared
blink timeouts held in animationTimeoutsRef; `pendingReact` records the
single reactivation timeout per laser held in reactivationTimeoutsRef;
`pendingGameOver` counts the scheduled deferred handleGameOver callbacks
(these are never put into a cancelable group in the source).
`acceptedTriggers` is the per-beam count of accepted trigger
notifications (instrumentation; see the file header). -/
structure GameState where
  config : LaserConfigState
  isGameRunning : Bool
  isGameStarting : Bool
  gameTime : Nat
  triggeredCount : Nat
  gameOver : Bool
  gameSuccess : Bool
  playerName : String
  showSaveScore : Bool
  laserActivationMap : String → Bool
  blinkingLasers : String → Bool
  reactivatingLasers : String → Bool
  acceptedTriggers : String → Nat
  pendingBlink : String → Nat
  pendingVisual : String → Nat
  pendingReact : String → Bool
  pendingGameOver : Nat
  gameOverRef : Bool
  isAnyGameRunning : Bool

/-- Pointwise update of a per-beam map (the JS `{ ...prev, [id]: v }`). -/
def upd {α : Type} (f : String → α) (k : String) (v : α) : String → α :=
  fun i => if i = k then v else f i

@[simp] theorem upd_same {α : Type} (f : String → α) (k : String) (v : α) :
    upd f k v k = v := by simp [upd]

@[simp] theorem upd_other {α : Type} (f : String → α) (k : String) (v : α)
    {i : String} (h : i ≠ k) : upd f k v i = f i := by simp [upd, h]

/-- `(value / 1023) * 100`, the percent normalization of a raw reading. -/
def normalizedValue (value : ℚ) : ℚ := value / 1023 * 100

/-- `normalizedValue < sensitivity` on a raw frame entry; a non-numeric
entry gives NaN, and every JS comparison with NaN is false. -/
def readingBroken (r : Reading) (sensitivity : ℚ) : Bool :=
  match r with
  | some v => decide (normalizedValue v < sensitivity)
  | none => false

/-- The initialStates computation of startGame/resetGame: every enabled
laser becomes active, every other key is absent (false). -/
def initialActivation (c : LaserConfigState) : String → Bool :=
  fun i => c.lasers.any (fun l => l.id = i && l.enabled)

/-- handleGameOver (the max-touch game-over path): releases the global
flag, stops the run and marks the outcome a failure. -/
def handleGameOver (s : GameState) : GameState :=
  { s with isAnyGameRunning := false, isGameRunning := false,
           gameOver := true, gameSuccess := false }

/-- handleLaserTriggered.  Guards: running, not reactivating, active.
Accepting increments triggeredCount (and the per-beam instrumentation
counter), schedules the deferred game-over when the maximum is reached and
not already in flight (gameOverRef), immediately deactivates the beam,
starts the blink and schedules the blink-end timeout. -/
def handleLaserTriggered (laserId : String) (s : GameState) : GameState :=
  if s.isGameRunning = false then s
  else if s.reactivatingLasers laserId = true ∨
          s.laserActivationMap laserId = false then s
  else
    let newCount := s.triggeredCount + 1
    let s1 := { s with
      triggeredCount := newCount
      acceptedTriggers :=
        upd s.acceptedTriggers laserId (s.acceptedTriggers laserId + 1) }
    let s2 :=
      if 0 < s.config.gameSettings.maxAllowedTouches ∧
         s.config.gameSettings.maxAllowedTouches ≤ newCount ∧
         s.gameOverRef = false
      then { s1 with
              gameOverRef := true
              pendingGameOver := s1.pendingGameOver + 1 }
      else s1
    { s2 with
      laserActivationMap := upd s2.laserActivationMap laserId false
      blinkingLasers := upd s2.blinkingLasers laserId true
      pendingBlink :=
        upd s2.pendingBlink laserId (s2.pendingBlink laserId + 1) }

/-- updateLaserVisual: visual-only blink, scheduling its own timeout. -/
def updateLaserVisual (laserId : String) (s : GameState) : GameState :=
  { s with
    blinkingLasers := upd s.blinkingLasers laserId true
    pendingVisual :=
      upd s.pendingVisual laserId (s.pendingVisual laserId + 1) }

/-- One laser of the game-path frame listener body: enabled and in-range,
then normalized threshold comparison, then the activation/reactivation
guard before handleLaserTriggered. -/
def gameLaserStep (values : List Reading) (s : GameState) (l : LaserConf) :
    GameState :=
  if l.enabled = true ∧ l.sensorIndex < values.length then
    if s.laserActivationMap l.id = true ∧
       readingBroken (values.getD l.sensorIndex none) l.sensitivity = true ∧
       s.reactivatingLasers l.id = false
    then handleLaserTriggered l.id s
    else s
  else s

/-- One laser of the visual-path frame listener body (the separate
listener that is subscribed only while the game is not running). -/
def visualLaserStep (values : List Reading) (s : GameState) (l : LaserConf) :
    GameState :=
  if l.enabled = true ∧ l.sensorIndex < values.length then
    if s.laserActivationMap l.id = true ∧
       readingBroken (values.getD l.sensorIndex none) l.sensitivity = true ∧
       s.isGameRunning = false
    then updateLaserVisual l.id s
    else s
  else s

/-- One incoming laser-sensor-data frame: while running the game listener
iterates the configured lasers (the visual listener is not subscribed);
otherwise the game listener returns at once and the visual listener
iterates them. -/
def processFrame (values : List Reading) (s : GameState) : GameState :=
  if s.isGameRunning = true then
    s.config.lasers.foldl (gameLaserStep values) s
  else
    s.config.lasers.foldl (visualLaserStep values) s

/-- startLaserReactivation: marks the beam reactivating, replaces any
earlier reactivation timeout with a fresh one (progress display interval
not modelled). -/
def startLaserReactivation (laserId : String) (s : GameState) : GameState :=
  { s with
    reactivatingLasers := upd s.reactivatingLasers laserId true
    pendingReact := upd s.pendingReact laserId true }

/-- The blinkTimeout body of handleLaserTriggered: fires only while still
scheduled; stops the blink and, only when reactivation is enabled, starts
the reactivation phase. -/
def blinkEndStep (laserId : String) (s : GameState) : GameState :=
  if 0 < s.pendingBlink laserId then
    let s1 := { s with
      pendingBlink := upd s.pendingBlink laserId (s.pendingBlink laserId - 1)
      blinkingLasers := upd s.blinkingLasers laserId false }
    if s1.config.gameSettings.reactivateLasers = true then
      startLaserReactivation laserId s1
    else s1
  else s

/-- The visualTimeout body of updateLaserVisual: stops the blink and, only
when no game is running, restores the beam to active. -/
def visualEndStep (laserId : String) (s : GameState) : GameState :=
  if 0 < s.pendingVisual laserId then
    let s1 := { s with
      pendingVisual :=
        upd s.pendingVisual laserId (s.pendingVisual laserId - 1)
      blinkingLasers := upd s.blinkingLasers laserId false }
    if s1.isGameRunning = false then
      { s1 with laserActivationMap := upd s1.laserActivationMap laserId true }
    else s1
  else s

/-- The reactivation-completion timeout body: fires only while scheduled;
does nothing further when the game has stopped; otherwise re-arms the
beam when its laser still exists in the configuration. -/
def reactEndStep (laserId : String) (s : GameState) : GameState :=
  if s.pendingReact laserId = true then
    let s1 := { s with pendingReact := upd s.pendingReact laserId false }
    if s1.isGameRunning = false then s1
    else if s1.config.lasers.any (fun l => l.id = laserId) then
      { s1 with
        laserActivationMap := upd s1.laserActivationMap laserId true
        reactivatingLasers := upd s1.reactivatingLasers laserId false }
    else s1
  else s

/-- The deferred `setTimeout(() => { handleGameOver(); gameOverRef.current
= false; }, 0)` callback firing. -/
def runGameOverStep (s : GameState) : GameState :=
  if 0 < s.pendingGameOver then
    let s1 := handleGameOver { s with pendingGameOver := s.pendingGameOver - 1 }
    { s1 with gameOverRef := false }
  else s

/-- stopGame: releases the global flag; when a run was live, marks it a
success and offers the save-score dialog; clears the whole animation and
reactivation timeout group and the per-beam blink/reactivation state. -/
def stopGame (s : GameState) : GameState :=
  let wasRunning := s.isGameRunning
  let s1 := { s with isAnyGameRunning := false }
  let s2 :=
    if wasRunning = true then
      { s1 with gameOver := true, gameSuccess := true, showSaveScore := true }
    else s1
  { s2 with
    isGameRunning := false
    pendingBlink := fun _ => 0
    pendingVisual := fun _ => 0
    pendingReact := fun _ => false
    blinkingLasers := fun _ => false
    reactivatingLasers := fun _ => false }

/-- handleBuzzerPressed: stopGame, then the success/save-score fields. -/
def handleBuzzerPressed (s : GameState) : GameState :=
  let s1 := stopGame s
  { s1 with gameSuccess := true, showSaveScore := true, playerName := "" }

/-- resetGame: releases the global flag, cancels every pending timeout,
clears every counter and per-beam state and re-arms the enabled beams. -/
def resetGame (s : GameState) : GameState :=
  { s with
    isAnyGameRunning := false
    isGameStarting := false
    pendingBlink := fun _ => 0
    pendingVisual := fun _ => 0
    pendingReact := fun _ => false
    blinkingLasers := fun _ => false
    reactivatingLasers := fun _ => false
    isGameRunning := false
    gameTime := 0
    triggeredCount := 0
    gameOver := false
    gameSuccess := false
    showSaveScore := false
    playerName := ""
    laserActivationMap := initialActivation s.config }

/-- startGame, taken as one atomic step (its only suspension point is the
fixed countdown delay): a no-op while another start is in flight
(isGameStarting) or while the global flag is held (canStartGame fails,
only a warning is logged); otherwise resets a still-running game, acquires
the global flag, clears the reactivation timeout group, zeroes clock and
counter and re-arms the enabled beams.  Net of the transient
setIsGameStarting(true)/(false) pair the starting flag ends false. -/
def startGame (s : GameState) : GameState :=
  if s.isGameStarting = true then s
  else if s.isAnyGameRunning = true then s
  else
    let s1 := if s.isGameRunning = true then resetGame s else s
    { s1 with
      isAnyGameRunning := true
      pendingReact := fun _ => false
      reactivatingLasers := fun _ => false
      gameTime := 0
      triggeredCount := 0
      gameOver := false
      gameSuccess := false
      blinkingLasers := fun _ => false
      isGameRunning := true
      isGameStarting := false
      laserActivationMap := initialActivation s1.config }

/-- handleCloseGameOver. -/
def handleCloseGameOver (s : GameState) : GameState :=
  { s with
    gameOver := false
    showSaveScore := false
    isGameRunning := false
    gameSuccess := false }

/-- The whitespace class of JavaScript String.prototype.trim (the ASCII
part; the engine only ever receives keyboard input here). -/
def isJsWhitespace (c : Char) : Bool :=
  c = ' ' ∨ c = '\t' ∨ c = '\n' ∨ c = '\r' ∨
    c = Char.ofNat 11 ∨ c = Char.ofNat 12

/-- JavaScript String.prototype.trim: strip leading and trailing
whitespace. -/
def jsTrim (s : String) : String :=
  String.mk
    (((s.data.dropWhile isJsWhitespace).reverse.dropWhile
        isJsWhitespace).reverse)

/-- handleSaveScore: rejects an empty or whitespace-only player name
without any change; otherwise hands the run record to addHighscore and
closes the dialog.  The generated id and date are environment inputs. -/
def handleSaveScore (newId date : String) (s : GameState) : GameState :=
  if jsTrim s.playerName = "" then s
  else
    { s with
      config := addHighscore s.config newId date
        { name := s.playerName,
          time := s.gameTime,
          touchedLasers := s.triggeredCount,
          maxAllowedTouches := s.config.gameSettings.maxAllowedTouches,
          reactivationEnabled := s.config.gameSettings.reactivateLasers,
          reactivationTimeSeconds :=
            s.config.gameSettings.reactivationTimeSeconds }
      showSaveScore := false
      playerName := "" }

/-- The events the engine reacts to: sensor frames, the 100 ms clock tick
(live only while running), the timer callbacks, the deferred game-over
callback, and the command entry points of the hook.  The start-button
listener is the composition of resetGame and a later startGame and needs
no event of its own. -/
inductive GEvent where
  | frame (values : List Reading)
  | tick
  | blinkEnd (laserId : String)
  | visualEnd (laserId : String)
  | reactEnd (laserId : String)
  | runGameOver
  | startGame
  | stopGame
  | buzzer
  | resetGame
  | closeGameOver
  | saveScore (newId date : String)
deriving Repr, DecidableEq

/-- One engine step.  The timer effect keeps the 100 ms interval only
while isGameRunning; the buzzer listener ignores the edge when no game is
running. -/
def step (s : GameState) : GEvent → GameState
  | .frame values => processFrame values s
  | .tick =>
      if s.isGameRunning = true then { s with gameTime := s.gameTime + 100 }
      else s
  | .blinkEnd laserId => blinkEndStep laserId s
  | .visualEnd laserId => visualEndStep laserId s
  | .reactEnd laserId => reactEndStep laserId s
  | .runGameOver => runGameOverStep s
  | .startGame => startGame s
  | .stopGame => stopGame s
  | .buzzer => if s.isGameRunning = true then handleBuzzerPressed s else s
  | .resetGame => resetGame s
  | .closeGameOver => handleCloseGameOver s
  | .saveScore newId date => handleSaveScore newId date s

/-- Run a whole event trace. -/
def run (s : GameState) : List GEvent → GameState
  | [] => s
  | e :: es => run (step s e) es

/-- The number of automatic Finished transitions along a trace: the
deferred game-over callbacks that actually fire. -/
def autoFinishCount : GameState → List GEvent → Nat
  | _, [] => 0
  | s, e :: es =>
      (if e = GEvent.runGameOver ∧ 0 < s.pendingGameOver then 1 else 0) +
        autoFinishCount (step s e) es

/-! ## Evaluation helpers for the threshold comparison -/

theorem readingBroken_none (sens : ℚ) : readingBroken none sens = false := rfl

theorem readingBroken_low : readingBroken (some 0) 50 = true := by
  simp [readingBroken, normalizedValue]

theorem readingBroken_high : readingBroken (some 1000) 50 = false := by
  simp only [readingBroken, normalizedValue, decide_eq_false_iff_not, not_lt]
  norm_num

/-! ## Field-preservation lemmas -/

/-- The state fields a trigger acceptance (handleLaserTriggered) never
writes. -/
def TriggerUntouched (s t : GameState) : Prop :=
  t.config = s.config ∧
  t.isGameRunning = s.isGameRunning ∧
  t.isGameStarting = s.isGameStarting ∧
  t.isAnyGameRunning = s.isAnyGameRunning ∧
  t.gameTime = s.gameTime ∧
  t.playerName = s.playerName ∧
  t.showSaveScore = s.showSaveScore ∧
  t.gameOver = s.gameOver ∧
  t.gameSuccess = s.gameSuccess ∧
  t.pendingVisual = s.pendingVisual ∧
  t.pendingReact = s.pendingReact ∧
  t.reactivatingLasers = s.reactivatingLasers

theorem triggerUntouched_refl (s : GameState) : TriggerUntouched s s :=
  ⟨rfl, rfl, rfl, rfl, rfl, rfl, rfl, rfl, rfl, rfl, rfl, rfl⟩

theorem triggerUntouched_trans {s t u : GameState}
    (h1 : TriggerUntouched s t) (h2 : TriggerUntouched t u) :
    TriggerUntouched s u := by
  obtain ⟨a1, a2, a3, a4, a5, a6, a7, a8, a9, a10, a11, a12⟩ := h1
  obtain ⟨b1, b2, b3, b4, b5, b6, b7, b8, b9, b10, b11, b12⟩ := h2
  exact ⟨b1.trans a1, b2.trans a2, b3.trans a3, b4.trans a4, b5.trans a5,
    b6.trans a6, b7.trans a7, b8.trans a8, b9.trans a9, b10.trans a10,
    b11.trans a11, b12.trans a12⟩

theorem handleLaserTriggered_untouched (b : String) (s : GameState) :
    TriggerUntouched s (handleLaserTriggered b s) := by
  unfold TriggerUntouched handleLaserTriggered
  dsimp only
  split_ifs <;>
    exact ⟨rfl, rfl, rfl, rfl, rfl, rfl, rfl, rfl, rfl, rfl, rfl, rfl⟩

theorem gameLaserStep_untouched (vs : List Reading) (s : GameState)
    (l : LaserConf) : TriggerUntouched s (gameLaserStep vs s l) := by
  unfold gameLaserStep
  split_ifs
  · exact handleLaserTriggered_untouched l.id s
  · exact triggerUntouched_refl s
  · exact triggerUntouched_refl s

theorem foldl_game_untouched (vs : List Reading) (ls : List LaserConf) :
    ∀ s : GameState, TriggerUntouched s (ls.foldl (gameLaserStep vs) s) := by
  induction ls with
  | nil => intro s; exact triggerUntouched_refl s
  | cons l ls ih =>
      intro s
      exact triggerUntouched_trans (gameLaserStep_untouched vs s l)
        (ih (gameLaserStep vs s l))

/-- The state fields the visual-only path never writes (it only blinks and
schedules its own timeout). -/
def VisualOnly (s t : GameState) : Prop :=
  t.config = s.config ∧
  t.isGameRunning = s.isGameRunning ∧
  t.isGameStarting = s.isGameStarting ∧
  t.isAnyGameRunning = s.isAnyGameRunning ∧
  t.gameTime = s.gameTime ∧
  t.triggeredCount = s.triggeredCount ∧
  t.playerName = s.playerName ∧
  t.showSaveScore = s.showSaveScore ∧
  t.gameOver = s.gameOver ∧
  t.gameSuccess = s.gameSuccess ∧
  t.laserActivationMap = s.laserActivationMap ∧
  t.reactivatingLasers = s.reactivatingLasers ∧
  t.acceptedTriggers = s.acceptedTriggers ∧
  t.pendingBlink = s.pendingBlink ∧
  t.pendingReact = s.pendingReact ∧
  t.pendingGameOver = s.pendingGameOver ∧
  t.gameOverRef = s.gameOverRef

theorem visualOnly_refl (s : GameState) : VisualOnly s s :=
  ⟨rfl, rfl, rfl, rfl, rfl, rfl, rfl, rfl, rfl, rfl, rfl, rfl, rfl, rfl,
    rfl, rfl, rfl⟩

theorem visualOnly_trans {s t u : GameState}
    (h1 : VisualOnly s t) (h2 : VisualOnly t u) : VisualOnly s u := by
  obtain ⟨a1, a2, a3, a4, a5, a6, a7, a8, a9, a10, a11, a12, a13, a14, a15,
    a16, a17⟩ := h1
  obtain ⟨b1, b2, b3, b4, b5, b6, b7, b8, b9, b10, b11, b12, b13, b14, b15,
    b16, b17⟩ := h2
  exact ⟨b1.trans a1, b2.trans a2, b3.trans a3, b4.trans a4, b5.trans a5,
    b6.trans a6, b7.trans a7, b8.trans a8, b9.trans a9, b10.trans a10,
    b11.trans a11, b12.trans a12, b13.trans a13, b14.trans a14,
    b15.trans a15, b16.trans a16, b17.trans a17⟩

theorem visualLaserStep_visualOnly (vs : List Reading) (s : GameState)
    (l : LaserConf) : VisualOnly s (visualLaserStep vs s l) := by
  unfold visualLaserStep updateLaserVisual
  split_ifs <;>
    exact ⟨rfl, rfl, rfl, rfl, rfl, rfl, rfl, rfl, rfl, rfl, rfl, rfl, rfl,
      rfl, rfl, rfl, rfl⟩

theorem foldl_visual_visualOnly (vs : List Reading) (ls : List LaserConf) :
    ∀ s : GameState, VisualOnly s (ls.foldl (visualLaserStep vs) s) := by
  induction ls with
  | nil => intro s; exact visualOnly_refl s
  | cons l ls ih =>
      intro s
      exact visualOnly_trans (visualLaserStep_visualOnly vs s l)
        (ih (visualLaserStep vs s l))

/-! ## Trigger acceptance: per-beam behavior -/

theorem handleLaserTriggered_not_running {s : GameState} (b : String)
    (h : s.isGameRunning = false) : handleLaserTriggered b s = s := by
  unfold handleLaserTriggered
  simp [h]

theorem handleLaserTriggered_accept {s : GameState} {b : String}
    (h1 : s.isGameRunning = true) (h2 : s.reactivatingLasers b = false)
    (h3 : s.laserActivationMap b = true) :
    (handleLaserTriggered b s).acceptedTriggers b = s.acceptedTriggers b + 1 ∧
    (handleLaserTriggered b s).laserActivationMap b = false ∧
    (handleLaserTriggered b s).blinkingLasers b = true ∧
    (handleLaserTriggered b s).triggeredCount = s.triggeredCount + 1 := by
  unfold handleLaserTriggered
  dsimp only
  simp only [h1, h2, h3]
  split_ifs <;> simp_all [upd]

theorem handleLaserTriggered_other {s : GameState} {b i : String}
    (hne : i ≠ b) :
    (handleLaserTriggered b s).acceptedTriggers i = s.acceptedTriggers i ∧
    (handleLaserTriggered b s).laserActivationMap i =
      s.laserActivationMap i ∧
    (handleLaserTriggered b s).blinkingLasers i = s.blinkingLasers i := by
  unfold handleLaserTriggered
  dsimp only
  split_ifs <;> simp_all [upd]

/-- The dichotomy for one laser of the game-path frame listener: either
beam b is untouched, or the step is an accepted trigger of b itself, which
then counts exactly once, leaves Armed and starts Blinking. -/
theorem gameLaserStep_cases (vs : List Reading) (s : GameState)
    (l : LaserConf) (b : String) :
    ((gameLaserStep vs s l).acceptedTriggers b = s.acceptedTriggers b ∧
     (gameLaserStep vs s l).laserActivationMap b = s.laserActivationMap b ∧
     (gameLaserStep vs s l).blinkingLasers b = s.blinkingLasers b) ∨
    ((gameLaserStep vs s l).acceptedTriggers b = s.acceptedTriggers b + 1 ∧
     (gameLaserStep vs s l).laserActivationMap b = false ∧
     (gameLaserStep vs s l).blinkingLasers b = true ∧
     s.laserActivationMap b = true) := by
  unfold gameLaserStep
  split_ifs with hrange hguard
  · by_cases hid : l.id = b
    · subst hid
      rcases hguard with ⟨hact, _hbr, hreact⟩
      by_cases hrun : s.isGameRunning = true
      · exact Or.inr ⟨(handleLaserTriggered_accept hrun hreact hact).1,
          (handleLaserTriggered_accept hrun hreact hact).2.1,
          (handleLaserTriggered_accept hrun hreact hact).2.2.1, hact⟩
      · rw [handleLaserTriggered_not_running l.id
          (Bool.not_eq_true _ ▸ hrun)]
        exact Or.inl ⟨rfl, rfl, rfl⟩
    · exact Or.inl (handleLaserTriggered_other fun h => hid h.symm)
  · exact Or.inl ⟨rfl, rfl, rfl⟩
  · exact Or.inl ⟨rfl, rfl, rfl⟩

/-- The dichotomy lifted to the whole laser list of one frame: beam b
either keeps its trigger count and activation, or counts exactly one
trigger, having been Armed before and inactive afterwards. -/
theorem foldl_game_cases (vs : List Reading) (ls : List LaserConf) :
    ∀ (s : GameState) (b : String),
    ((ls.foldl (gameLaserStep vs) s).acceptedTriggers b =
       s.acceptedTriggers b ∧
     (ls.foldl (gameLaserStep vs) s).laserActivationMap b =
       s.laserActivationMap b) ∨
    ((ls.foldl (gameLaserStep vs) s).acceptedTriggers b =
       s.acceptedTriggers b + 1 ∧
     (ls.foldl (gameLaserStep vs) s).laserActivationMap b = false ∧
     s.laserActivationMap b = true) := by
  induction ls with
  | nil => intro s b; exact Or.inl ⟨rfl, rfl⟩
  | cons l ls ih =>
      intro s b
      simp only [List.foldl_cons]
      rcases gameLaserStep_cases vs s l b with ⟨e1, e2, _⟩ | ⟨e1, e2, _, e4⟩
      · rcases ih (gameLaserStep vs s l) b with ⟨f1, f2⟩ | ⟨f1, f2, f3⟩
        · exact Or.inl ⟨f1.trans e1, f2.trans e2⟩
        · refine Or.inr ⟨f1.trans (by rw [e1]), f2, ?_⟩
          rw [e2] at f3; exact f3
      · rcases ih (gameLaserStep vs s l) b with ⟨f1, f2⟩ | ⟨f1, f2, f3⟩
        · exact Or.inr ⟨f1.trans e1, f2.trans e2, e4⟩
        · rw [e2] at f3; exact absurd f3 (by simp)

/-- The dichotomy for one whole frame (game path while running, visual
path otherwise; the visual path never touches trigger counts or
activation). -/
theorem processFrame_cases (vs : List Reading) (s : GameState) (b : String) :
    ((processFrame vs s).acceptedTriggers b = s.acceptedTriggers b ∧
     (processFrame vs s).laserActivationMap b = s.laserActivationMap b) ∨
    ((processFrame vs s).acceptedTriggers b = s.acceptedTriggers b + 1 ∧
     (processFrame vs s).laserActivationMap b = false ∧
     s.laserActivationMap b = true) := by
  unfold processFrame
  split_ifs
  · exact foldl_game_cases vs s.config.lasers s b
  · obtain ⟨_, _, _, _, _, _, _, _, _, _, hact, _, hacc, _⟩ :=
      foldl_visual_visualOnly vs s.config.lasers s
    exact Or.inl ⟨congrFun hacc b, congrFun hact b⟩

/-- The dichotomy over any sequence of frames. -/
theorem runFrames_cases (frames : List (List Reading)) :
    ∀ (s : GameState) (b : String),
    ((run s (frames.map GEvent.frame)).acceptedTriggers b =
       s.acceptedTriggers b ∧
     (run s (frames.map GEvent.frame)).laserActivationMap b =
       s.laserActivationMap b) ∨
    ((run s (frames.map GEvent.frame)).acceptedTriggers b =
       s.acceptedTriggers b + 1 ∧
     (run s (frames.map GEvent.frame)).laserActivationMap b = false ∧
     s.laserActivationMap b = true) := by
  induction frames with
  | nil => intro s b; exact Or.inl ⟨rfl, rfl⟩
  | cons vs frames ih =>
      intro s b
      simp only [List.map_cons, run, step]
      rcases processFrame_cases vs s b with ⟨e1, e2⟩ | ⟨e1, e2, e4⟩
      · rcases ih (processFrame vs s) b with ⟨f1, f2⟩ | ⟨f1, f2, f3⟩
        · exact Or.inl ⟨f1.trans e1, f2.trans e2⟩
        · refine Or.inr ⟨f1.trans (by rw [e1]), f2, ?_⟩
          rw [e2] at f3; exact f3
      · rcases ih (processFrame vs s) b with ⟨f1, f2⟩ | ⟨f1, f2, f3⟩
        · exact Or.inr ⟨f1.trans e1, f2.trans e2, e4⟩
        · rw [e2] at f3; exact absurd f3 (by simp)

/-! ## Concrete fixtures used by the witnesses -/

/-- A configuration with two allowed touches, reactivation disabled. -/
def wCfg : LaserConfigState :=
  { defaultLaserConfig with
    gameSettings :=
      { maxAllowedTouches := 2, reactivateLasers := false,
        reactivationTimeSeconds := 5 } }

/-- The first default laser (sensor index 0, sensitivity 50). -/
def wLaser1 : LaserConf :=
  { id := "1", name := "Laser 1", sensitivity := 50, order := 0,
    enabled := true, sensorIndex := 0 }

/-- A running session over wCfg in which only beam "1" is armed. -/
def wArmed : GameState :=
  { config := wCfg
    isGameRunning := true
    isGameStarting := false
    gameTime := 0
    triggeredCount := 0
    gameOver := false
    gameSuccess := false
    playerName := ""
    showSaveScore := false
    laserActivationMap := fun i => i == "1"
    blinkingLasers := fun _ => false
    reactivatingLasers := fun _ => false
    acceptedTriggers := fun _ => 0
    pendingBlink := fun _ => 0
    pendingVisual := fun _ => 0
    pendingReact := fun _ => false
    pendingGameOver := 0
    gameOverRef := false
    isAnyGameRunning := true }

/-- A frame breaking beam "1" (raw 0) and leaving beams "2","3" intact
(raw 1000). -/
def frameLow : List Reading := [some 0, some 1000, some 1000]

/-- An idle engine over wCfg: nothing running, nothing pending. -/
def wIdle : GameState :=
  { config := wCfg
    isGameRunning := false
    isGameStarting := false
    gameTime := 0
    triggeredCount := 0
    gameOver := false
    gameSuccess := false
    playerName := ""
    showSaveScore := false
    laserActivationMap := fun _ => false
    blinkingLasers := fun _ => false
    reactivatingLasers := fun _ => false
    acceptedTriggers := fun _ => 0
    pendingBlink := fun _ => 0
    pendingVisual := fun _ => 0
    pendingReact := fun _ => false
    pendingGameOver := 0
    gameOverRef := false
    isAnyGameRunning := false }

/-! ## C1 -/

/-- C1: for every configured beam and every sequence of frames reporting
it broken while the session is Running, the beam leaves Armed for
Blinking and the trigger count is incremented at most once per Armed
period, however often the frames repeat; acceptance synchronously marks
the beam as in-process (immediate deactivation), so no later frame can
re-trigger it before it is re-armed. -/
theorem beam_triggers_at_most_once_per_armed_period
    (s : GameState) (frames : List (List Reading)) (vs : List Reading)
    (l : LaserConf) (b : String) :
    ((run s (frames.map GEvent.frame)).acceptedTriggers b ≤
       s.acceptedTriggers b + 1) ∧
    (s.isGameRunning = true → s.laserActivationMap l.id = true →
     s.reactivatingLasers l.id = false → l.enabled = true →
     l.sensorIndex < vs.length →
     readingBroken (vs.getD l.sensorIndex none) l.sensitivity = true →
     ((gameLaserStep vs s l).acceptedTriggers l.id =
        s.acceptedTriggers l.id + 1 ∧
      (gameLaserStep vs s l).laserActivationMap l.id = false ∧
      (gameLaserStep vs s l).blinkingLasers l.id = true)) ∧
    (s.laserActivationMap b = false →
     ((processFrame vs s).acceptedTriggers b = s.acceptedTriggers b ∧
      (processFrame vs s).laserActivationMap b = false)) := by
  refine ⟨?_, ?_, ?_⟩
  · rcases runFrames_cases frames s b with ⟨e1, _⟩ | ⟨e1, _, _⟩ <;> omega
  · intro hrun hact hreact hen hrange hbroken
    have hstep : gameLaserStep vs s l = handleLaserTriggered l.id s := by
      unfold gameLaserStep
      rw [if_pos ⟨hen, hrange⟩, if_pos ⟨hact, hbroken, hreact⟩]
    rw [hstep]
    exact ⟨(handleLaserTriggered_accept hrun hreact hact).1,
      (handleLaserTriggered_accept hrun hreact hact).2.1,
      (handleLaserTriggered_accept hrun hreact hact).2.2.1⟩
  · intro hoff
    rcases processFrame_cases vs s b with ⟨e1, e2⟩ | ⟨_, _, e4⟩
    · exact ⟨e1, e2.trans hoff⟩
    · rw [hoff] at e4; exact absurd e4 (by simp)

/-- Witness for C1 at the concrete running state wArmed: two frames
breaking beam "1" count it once; a single accepted trigger deactivates
and blinks; the inactive beam "2" is untouched by a frame. -/
theorem beam_triggers_at_most_once_witness :
    ((run wArmed ([frameLow, frameLow].map GEvent.frame)).acceptedTriggers
        "2" ≤ wArmed.acceptedTriggers "2" + 1) ∧
    ((gameLaserStep frameLow wArmed wLaser1).acceptedTriggers "1" =
        wArmed.acceptedTriggers "1" + 1 ∧
     (gameLaserStep frameLow wArmed wLaser1).laserActivationMap "1" =
        false ∧
     (gameLaserStep frameLow wArmed wLaser1).blinkingLasers "1" = true) ∧
    ((processFrame frameLow wArmed).acceptedTriggers "2" =
        wArmed.acceptedTriggers "2" ∧
     (processFrame frameLow wArmed).laserActivationMap "2" = false) := by
  refine ⟨(beam_triggers_at_most_once_per_armed_period wArmed
    [frameLow, frameLow] frameLow wLaser1 "2").1, ?_, ?_⟩
  · exact (beam_triggers_at_most_once_per_armed_period wArmed []
      frameLow wLaser1 "1").2.1 rfl rfl rfl rfl (by decide) readingBroken_low
  · exact (beam_triggers_at_most_once_per_armed_period wArmed []
      frameLow wLaser1 "2").2.2 rfl

/-! ## C7 -/

/-- C7: an in-range reading of an enabled beam is normalized to percent
as value/1023*100 and the beam counts as broken exactly when that
normalized value is strictly below the configured sensitivity; for an
armed beam during a running session, the frame step accepts a trigger
exactly under that comparison. -/
theorem reading_broken_iff_normalized_below_threshold
    (v sens : ℚ) (vs : List Reading) (s : GameState) (l : LaserConf) :
    (readingBroken (some v) sens = true ↔ normalizedValue v < sens) ∧
    (normalizedValue v = v / 1023 * 100) ∧
    (s.isGameRunning = true → l.enabled = true →
     l.sensorIndex < vs.length →
     vs.getD l.sensorIndex none = some v →
     s.laserActivationMap l.id = true → s.reactivatingLasers l.id = false →
     ((gameLaserStep vs s l).acceptedTriggers l.id =
        s.acceptedTriggers l.id + 1 ↔ v / 1023 * 100 < l.sensitivity)) := by
  refine ⟨by simp [readingBroken], rfl, ?_⟩
  intro hrun hen hrange hgetd hact hreact
  constructor
  · intro hcount
    by_contra hnb
    have hbroken : readingBroken (vs.getD l.sensorIndex none) l.sensitivity
        = false := by
      rw [hgetd]; simp [readingBroken, normalizedValue, hnb]
    have hstep : gameLaserStep vs s l = s := by
      unfold gameLaserStep
      rw [if_pos ⟨hen, hrange⟩, if_neg]
      intro hc
      rw [hbroken] at hc
      exact absurd hc.2.1 (by simp)
    rw [hstep] at hcount
    omega
  · intro hb
    have hbroken : readingBroken (vs.getD l.sensorIndex none) l.sensitivity
        = true := by
      rw [hgetd]; simp [readingBroken, normalizedValue, hb]
    have hstep : gameLaserStep vs s l = handleLaserTriggered l.id s := by
      unfold gameLaserStep
      rw [if_pos ⟨hen, hrange⟩, if_pos ⟨hact, hbroken, hreact⟩]
    rw [hstep]
    exact (handleLaserTriggered_accept hrun hreact hact).1

/-- Witness for C7 at reading 0 against sensitivity 50 in wArmed. -/
theorem reading_broken_iff_witness :
    (readingBroken (some 0) 50 = true ↔ normalizedValue 0 < 50) ∧
    (normalizedValue 0 = 0 / 1023 * 100) ∧
    ((gameLaserStep frameLow wArmed wLaser1).acceptedTriggers "1" =
        wArmed.acceptedTriggers "1" + 1 ↔ (0 : ℚ) / 1023 * 100 < 50) := by
  refine ⟨(reading_broken_iff_normalized_below_threshold 0 50 frameLow
    wArmed wLaser1).1, (reading_broken_iff_normalized_below_threshold 0 50
    frameLow wArmed wLaser1).2.1, ?_⟩
  exact (reading_broken_iff_normalized_below_threshold 0 50 frameLow
    wArmed wLaser1).2.2 rfl rfl (by decide) rfl rfl rfl

/-! ## C3 -/

/-- A laser whose reading is unavailable (enabled but out of range or
non-numeric) leaves the state untouched, on both listener paths. -/
theorem laserStep_skip (vs : List Reading) (s : GameState) (l : LaserConf)
    (h : l.enabled = true →
      vs.length ≤ l.sensorIndex ∨ vs.getD l.sensorIndex none = none) :
    gameLaserStep vs s l = s ∧ visualLaserStep vs s l = s := by
  constructor
  · unfold gameLaserStep
    split_ifs with h1 h2
    · rcases h h1.1 with hlen | hnone
      · omega
      · rw [hnone] at h2
        exact absurd h2.2.1 (by simp [readingBroken])
    · rfl
    · rfl
  · unfold visualLaserStep
    split_ifs with h1 h2
    · rcases h h1.1 with hlen | hnone
      · omega
      · rw [hnone] at h2
        exact absurd h2.2.1 (by simp [readingBroken])
    · rfl
    · rfl

/-- If every laser of beam b is unreadable in this frame, a single laser
step of either path leaves all of beam b's state untouched. -/
theorem laserStep_bfields (vs : List Reading) (s : GameState)
    (l : LaserConf) (b : String)
    (h : l.id = b → l.enabled = true →
      vs.length ≤ l.sensorIndex ∨ vs.getD l.sensorIndex none = none) :
    ((gameLaserStep vs s l).acceptedTriggers b = s.acceptedTriggers b ∧
     (gameLaserStep vs s l).laserActivationMap b = s.laserActivationMap b ∧
     (gameLaserStep vs s l).blinkingLasers b = s.blinkingLasers b ∧
     (gameLaserStep vs s l).reactivatingLasers b =
       s.reactivatingLasers b) ∧
    ((visualLaserStep vs s l).acceptedTriggers b = s.acceptedTriggers b ∧
     (visualLaserStep vs s l).laserActivationMap b =
       s.laserActivationMap b ∧
     (visualLaserStep vs s l).blinkingLasers b = s.blinkingLasers b ∧
     (visualLaserStep vs s l).reactivatingLasers b =
       s.reactivatingLasers b) := by
  by_cases hid : l.id = b
  · obtain ⟨hg, hv⟩ := laserStep_skip vs s l (h hid)
    rw [hg, hv]
    exact ⟨⟨rfl, rfl, rfl, rfl⟩, ⟨rfl, rfl, rfl, rfl⟩⟩
  · have hbne : b ≠ l.id := fun hc => hid hc.symm
    constructor
    · unfold gameLaserStep
      split_ifs
      · obtain ⟨e1, e2, e3⟩ :=
          handleLaserTriggered_other (s := s) (b := l.id) (i := b) hbne
        refine ⟨e1, e2, e3, ?_⟩
        exact congrFun
          (handleLaserTriggered_untouched l.id s).2.2.2.2.2.2.2.2.2.2.2 b
      · exact ⟨rfl, rfl, rfl, rfl⟩
      · exact ⟨rfl, rfl, rfl, rfl⟩
    · unfold visualLaserStep updateLaserVisual
      split_ifs
      · exact ⟨rfl, rfl, upd_other s.blinkingLasers l.id true hbne, rfl⟩
      · exact ⟨rfl, rfl, rfl, rfl⟩
      · exact ⟨rfl, rfl, rfl, rfl⟩

/-- The two lasers of the counterexample configuration: beam "a" reports
on frame index 0, beam "b" on frame index 5. -/
def cexA : LaserConf :=
  { id := "a", name := "A", sensitivity := 50, order := 0, enabled := true,
    sensorIndex := 0 }

def cexB : LaserConf :=
  { id := "b", name := "B", sensitivity := 50, order := 1, enabled := true,
    sensorIndex := 5 }

def cexCfg : LaserConfigState :=
  { defaultLaserConfig with lasers := [cexA, cexB] }

/-- A running session over cexCfg with every beam armed. -/
def cexState : GameState :=
  { config := cexCfg
    isGameRunning := true
    isGameStarting := false
    gameTime := 0
    triggeredCount := 0
    gameOver := false
    gameSuccess := false
    playerName := ""
    showSaveScore := false
    laserActivationMap := fun _ => true
    blinkingLasers := fun _ => false
    reactivatingLasers := fun _ => false
    acceptedTriggers := fun _ => 0
    pendingBlink := fun _ => 0
    pendingVisual := fun _ => 0
    pendingReact := fun _ => false
    pendingGameOver := 0
    gameOverRef := false
    isAnyGameRunning := true }

/-- Counterexample to C3 as stated: the frame [0] is shorter than the
largest sensorIndex referenced by an enabled beam (beam "b" reads index
5), yet the frame is not dropped whole: the in-range beam "a" is
triggered, the count changes from 0 to 1 and the beam leaves Armed, a
partial update. -/
theorem short_frame_not_dropped_whole :
    (∃ l ∈ cexState.config.lasers, l.enabled = true ∧
      List.length [(some 0 : Reading)] ≤ l.sensorIndex) ∧
    cexState.triggeredCount = 0 ∧
    (step cexState (GEvent.frame [some 0])).triggeredCount = 1 ∧
    (step cexState (GEvent.frame [some 0])).laserActivationMap "a" =
      false := by
  have hA : gameLaserStep [some 0] cexState cexA =
      handleLaserTriggered "a" cexState := by
    unfold gameLaserStep
    rw [if_pos ⟨rfl, by decide⟩]
    rw [if_pos ⟨rfl, readingBroken_low, rfl⟩]
    rfl
  have hB : ∀ t : GameState, gameLaserStep [some 0] t cexB = t := by
    intro t
    exact (laserStep_skip [some 0] t cexB (fun _ => Or.inl (by decide))).1
  have hfold : step cexState (GEvent.frame [some 0]) =
      handleLaserTriggered "a" cexState := by
    show processFrame [some 0] cexState = handleLaserTriggered "a" cexState
    unfold processFrame
    rw [if_pos (show cexState.isGameRunning = true from rfl)]
    show List.foldl (gameLaserStep [some 0]) cexState [cexA, cexB] = _
    rw [List.foldl_cons, hA, List.foldl_cons, hB, List.foldl_nil]
  refine ⟨⟨cexB, List.mem_cons_of_mem _ (List.mem_cons_self _ _),
    rfl, by decide⟩, rfl, ?_, ?_⟩
  · rw [hfold]
    exact (handleLaserTriggered_accept (s := cexState) (b := "a")
      rfl rfl rfl).2.2.2
  · rw [hfold]
    exact (handleLaserTriggered_accept (s := cexState) (b := "a")
      rfl rfl rfl).2.1

/-- C3 (amended): beams whose reading is unavailable in a frame (enabled
but with sensorIndex beyond the frame, or with a non-numeric value) are
skipped individually and silently: such a beam keeps its whole state and
counts no trigger, and the frame handler is a total function (no
exception); if every enabled beam of the frame is unreadable the frame is
a no-op.  In-range beams of the same frame are still processed, so a
short frame causes a partial update, not a whole-frame drop; skipping
never fails the session. -/
theorem unreadable_beams_skipped_individually
    (s : GameState) (vs : List Reading) (b : String) :
    ((∀ l ∈ s.config.lasers, l.id = b → l.enabled = true →
        vs.length ≤ l.sensorIndex ∨ vs.getD l.sensorIndex none = none) →
      ((processFrame vs s).acceptedTriggers b = s.acceptedTriggers b ∧
       (processFrame vs s).laserActivationMap b = s.laserActivationMap b ∧
       (processFrame vs s).blinkingLasers b = s.blinkingLasers b ∧
       (processFrame vs s).reactivatingLasers b =
         s.reactivatingLasers b)) ∧
    ((∀ l ∈ s.config.lasers, l.enabled = true →
        vs.length ≤ l.sensorIndex ∨ vs.getD l.sensorIndex none = none) →
      processFrame vs s = s) := by
  constructor
  · intro h
    have main : ∀ (ls : List LaserConf) (t : GameState),
        (∀ l ∈ ls, l.id = b → l.enabled = true →
          vs.length ≤ l.sensorIndex ∨ vs.getD l.sensorIndex none = none) →
        ((ls.foldl (gameLaserStep vs) t).acceptedTriggers b =
           t.acceptedTriggers b ∧
         (ls.foldl (gameLaserStep vs) t).laserActivationMap b =
           t.laserActivationMap b ∧
         (ls.foldl (gameLaserStep vs) t).blinkingLasers b =
           t.blinkingLasers b ∧
         (ls.foldl (gameLaserStep vs) t).reactivatingLasers b =
           t.reactivatingLasers b) ∧
        ((ls.foldl (visualLaserStep vs) t).acceptedTriggers b =
           t.acceptedTriggers b ∧
         (ls.foldl (visualLaserStep vs) t).laserActivationMap b =
           t.laserActivationMap b ∧
         (ls.foldl (visualLaserStep vs) t).blinkingLasers b =
           t.blinkingLasers b ∧
         (ls.foldl (visualLaserStep vs) t).reactivatingLasers b =
           t.reactivatingLasers b) := by
      intro ls
      induction ls with
      | nil => intro t _; exact ⟨⟨rfl, rfl, rfl, rfl⟩, ⟨rfl, rfl, rfl, rfl⟩⟩
      | cons l ls ih =>
          intro t hl
          have hhead := laserStep_bfields vs t l b
            (hl l (List.mem_cons_self l ls))
          have htail := fun u => ih u
            (fun x hx => hl x (List.mem_cons_of_mem l hx))
          obtain ⟨⟨g1, g2, g3, g4⟩, ⟨v1, v2, v3, v4⟩⟩ := hhead
          constructor
          · obtain ⟨⟨t1, t2, t3, t4⟩, _⟩ := htail (gameLaserStep vs t l)
            exact ⟨t1.trans g1, t2.trans g2, t3.trans g3, t4.trans g4⟩
          · obtain ⟨_, ⟨t1, t2, t3, t4⟩⟩ := htail (visualLaserStep vs t l)
            exact ⟨t1.trans v1, t2.trans v2, t3.trans v3, t4.trans v4⟩
    unfold processFrame
    split_ifs
    · exact (main s.config.lasers s h).1
    · exact (main s.config.lasers s h).2
  · intro h
    have main : ∀ (ls : List LaserConf) (t : GameState),
        (∀ l ∈ ls, l.enabled = true →
          vs.length ≤ l.sensorIndex ∨ vs.getD l.sensorIndex none = none) →
        ls.foldl (gameLaserStep vs) t = t ∧
        ls.foldl (visualLaserStep vs) t = t := by
      intro ls
      induction ls with
      | nil => intro t _; exact ⟨rfl, rfl⟩
      | cons l ls ih =>
          intro t hl
          obtain ⟨hg, hv⟩ := laserStep_skip vs t l
            (hl l (List.mem_cons_self l ls))
          have htail := ih t (fun x hx => hl x (List.mem_cons_of_mem l hx))
          constructor
          · rw [List.foldl_cons, hg]; exact htail.1
          · rw [List.foldl_cons, hv]; exact htail.2
    unfold processFrame
    split_ifs
    · exact (main s.config.lasers s h).1
    · exact (main s.config.lasers s h).2

/-- Witness for the amended C3 at cexState: beam "b" (index 5) is skipped
by the one-entry frame, and the empty frame is a no-op for the whole
configuration. -/
theorem unreadable_beams_skipped_witness :
    ((processFrame [some 0] cexState).acceptedTriggers "b" =
        cexState.acceptedTriggers "b" ∧
     (processFrame [some 0] cexState).laserActivationMap "b" =
        cexState.laserActivationMap "b" ∧
     (processFrame [some 0] cexState).blinkingLasers "b" =
        cexState.blinkingLasers "b" ∧
     (processFrame [some 0] cexState).reactivatingLasers "b" =
        cexState.reactivatingLasers "b") ∧
    processFrame [] cexState = cexState := by
  constructor
  · exact (unreadable_beams_skipped_individually cexState [some 0] "b").1
      (by
        intro l hl hid hen
        fin_cases hl
        · exact absurd hid (by decide)
        · exact Or.inl (by decide))
  · exact (unreadable_beams_skipped_individually cexState [] "b").2
      (by intro l hl hen; exact Or.inl (Nat.zero_le _))

/-! ## Field behavior of the timer callbacks and commands -/

theorem blinkEndStep_fields (b : String) (s : GameState) :
    (blinkEndStep b s).config = s.config ∧
    (blinkEndStep b s).isGameRunning = s.isGameRunning ∧
    (blinkEndStep b s).isGameStarting = s.isGameStarting ∧
    (blinkEndStep b s).isAnyGameRunning = s.isAnyGameRunning ∧
    (blinkEndStep b s).gameTime = s.gameTime ∧
    (blinkEndStep b s).triggeredCount = s.triggeredCount ∧
    (blinkEndStep b s).acceptedTriggers = s.acceptedTriggers ∧
    (blinkEndStep b s).laserActivationMap = s.laserActivationMap ∧
    (blinkEndStep b s).pendingGameOver = s.pendingGameOver ∧
    (blinkEndStep b s).gameOverRef = s.gameOverRef ∧
    (blinkEndStep b s).playerName = s.playerName ∧
    (blinkEndStep b s).showSaveScore = s.showSaveScore ∧
    (blinkEndStep b s).gameOver = s.gameOver ∧
    (blinkEndStep b s).gameSuccess = s.gameSuccess ∧
    (blinkEndStep b s).pendingVisual = s.pendingVisual := by
  unfold blinkEndStep startLaserReactivation
  dsimp only
  split_ifs <;>
    exact ⟨rfl, rfl, rfl, rfl, rfl, rfl, rfl, rfl, rfl, rfl, rfl, rfl, rfl,
      rfl, rfl⟩

theorem blinkEndStep_reactOff {b : String} {s : GameState}
    (h : s.config.gameSettings.reactivateLasers = false) :
    (blinkEndStep b s).pendingReact = s.pendingReact ∧
    (blinkEndStep b s).reactivatingLasers = s.reactivatingLasers ∧
    (0 < s.pendingBlink b → (blinkEndStep b s).blinkingLasers b = false) := by
  unfold blinkEndStep startLaserReactivation
  dsimp only
  split_ifs with h1 h2
  · rw [h] at h2; exact absurd h2 (by simp)
  · exact ⟨rfl, rfl, fun _ => upd_same _ _ _⟩
  · exact ⟨rfl, rfl, fun hc => absurd hc (by omega)⟩

theorem visualEndStep_fields (b : String) (s : GameState) :
    (visualEndStep b s).config = s.config ∧
    (visualEndStep b s).isGameRunning = s.isGameRunning ∧
    (visualEndStep b s).isGameStarting = s.isGameStarting ∧
    (visualEndStep b s).isAnyGameRunning = s.isAnyGameRunning ∧
    (visualEndStep b s).gameTime = s.gameTime ∧
    (visualEndStep b s).triggeredCount = s.triggeredCount ∧
    (visualEndStep b s).acceptedTriggers = s.acceptedTriggers ∧
    (visualEndStep b s).pendingGameOver = s.pendingGameOver ∧
    (visualEndStep b s).gameOverRef = s.gameOverRef ∧
    (visualEndStep b s).pendingBlink = s.pendingBlink ∧
    (visualEndStep b s).pendingReact = s.pendingReact ∧
    (visualEndStep b s).reactivatingLasers = s.reactivatingLasers ∧
    (visualEndStep b s).playerName = s.playerName ∧
    (visualEndStep b s).showSaveScore = s.showSaveScore ∧
    (visualEndStep b s).gameOver = s.gameOver ∧
    (visualEndStep b s).gameSuccess = s.gameSuccess := by
  unfold visualEndStep
  dsimp only
  split_ifs <;>
    exact ⟨rfl, rfl, rfl, rfl, rfl, rfl, rfl, rfl, rfl, rfl, rfl, rfl, rfl,
      rfl, rfl, rfl⟩

theorem visualEndStep_running {b : String} {s : GameState}
    (h : s.isGameRunning = true) :
    (visualEndStep b s).laserActivationMap = s.laserActivationMap := by
  unfold visualEndStep
  dsimp only
  split_ifs with h1 h2
  · rw [h] at h2; exact absurd h2 (by simp)
  · rfl
  · rfl

theorem reactEndStep_fields (b : String) (s : GameState) :
    (reactEndStep b s).config = s.config ∧
    (reactEndStep b s).isGameRunning = s.isGameRunning ∧
    (reactEndStep b s).isGameStarting = s.isGameStarting ∧
    (reactEndStep b s).isAnyGameRunning = s.isAnyGameRunning ∧
    (reactEndStep b s).gameTime = s.gameTime ∧
    (reactEndStep b s).triggeredCount = s.triggeredCount ∧
    (reactEndStep b s).acceptedTriggers = s.acceptedTriggers ∧
    (reactEndStep b s).pendingGameOver = s.pendingGameOver ∧
    (reactEndStep b s).gameOverRef = s.gameOverRef ∧
    (reactEndStep b s).pendingBlink = s.pendingBlink ∧
    (reactEndStep b s).pendingVisual = s.pendingVisual ∧
    (reactEndStep b s).blinkingLasers = s.blinkingLasers ∧
    (reactEndStep b s).playerName = s.playerName ∧
    (reactEndStep b s).showSaveScore = s.showSaveScore ∧
    (reactEndStep b s).gameOver = s.gameOver ∧
    (reactEndStep b s).gameSuccess = s.gameSuccess := by
  unfold reactEndStep
  dsimp only
  split_ifs <;>
    exact ⟨rfl, rfl, rfl, rfl, rfl, rfl, rfl, rfl, rfl, rfl, rfl, rfl, rfl,
      rfl, rfl, rfl⟩

theorem reactEndStep_noPending {b : String} {s : GameState}
    (h : s.pendingReact b = false) : reactEndStep b s = s := by
  unfold reactEndStep
  rw [if_neg (by rw [h]; exact fun hc => absurd hc (by simp))]

theorem reactEndStep_other {b i : String} {s : GameState} (hne : i ≠ b) :
    (reactEndStep b s).laserActivationMap i = s.laserActivationMap i ∧
    (reactEndStep b s).pendingReact i = s.pendingReact i := by
  unfold reactEndStep
  dsimp only
  split_ifs <;> simp [upd, hne]

theorem stopGame_fields (s : GameState) :
    (stopGame s).config = s.config ∧
    (stopGame s).isGameStarting = s.isGameStarting ∧
    (stopGame s).gameTime = s.gameTime ∧
    (stopGame s).triggeredCount = s.triggeredCount ∧
    (stopGame s).acceptedTriggers = s.acceptedTriggers ∧
    (stopGame s).laserActivationMap = s.laserActivationMap ∧
    (stopGame s).playerName = s.playerName ∧
    (stopGame s).pendingGameOver = s.pendingGameOver ∧
    (stopGame s).gameOverRef = s.gameOverRef ∧
    (stopGame s).isGameRunning = false ∧
    (stopGame s).isAnyGameRunning = false ∧
    (stopGame s).pendingReact = fun _ => false := by
  unfold stopGame
  dsimp only
  split_ifs <;>
    exact ⟨rfl, rfl, rfl, rfl, rfl, rfl, rfl, rfl, rfl, rfl, rfl, rfl⟩

theorem handleBuzzerPressed_fields (s : GameState) :
    (handleBuzzerPressed s).config = s.config ∧
    (handleBuzzerPressed s).isGameStarting = s.isGameStarting ∧
    (handleBuzzerPressed s).gameTime = s.gameTime ∧
    (handleBuzzerPressed s).triggeredCount = s.triggeredCount ∧
    (handleBuzzerPressed s).acceptedTriggers = s.acceptedTriggers ∧
    (handleBuzzerPressed s).laserActivationMap = s.laserActivationMap ∧
    (handleBuzzerPressed s).pendingGameOver = s.pendingGameOver ∧
    (handleBuzzerPressed s).gameOverRef = s.gameOverRef ∧
    (handleBuzzerPressed s).isGameRunning = false ∧
    (handleBuzzerPressed s).isAnyGameRunning = false ∧
    (handleBuzzerPressed s).pendingReact = fun _ => false := by
  unfold handleBuzzerPressed stopGame
  dsimp only
  split_ifs <;>
    exact ⟨rfl, rfl, rfl, rfl, rfl, rfl, rfl, rfl, rfl, rfl, rfl⟩

theorem startGame_const (s : GameState) :
    (startGame s).config = s.config ∧
    (startGame s).acceptedTriggers = s.acceptedTriggers ∧
    (startGame s).pendingGameOver = s.pendingGameOver ∧
    (startGame s).gameOverRef = s.gameOverRef := by
  unfold startGame resetGame
  dsimp only
  split_ifs <;> exact ⟨rfl, rfl, rfl, rfl⟩

theorem handleSaveScore_fields (newId date : String) (s : GameState) :
    (handleSaveScore newId date s).config.gameSettings =
      s.config.gameSettings ∧
    (handleSaveScore newId date s).config.lasers = s.config.lasers ∧
    (handleSaveScore newId date s).isGameRunning = s.isGameRunning ∧
    (handleSaveScore newId date s).isGameStarting = s.isGameStarting ∧
    (handleSaveScore newId date s).isAnyGameRunning = s.isAnyGameRunning ∧
    (handleSaveScore newId date s).gameTime = s.gameTime ∧
    (handleSaveScore newId date s).triggeredCount = s.triggeredCount ∧
    (handleSaveScore newId date s).acceptedTriggers = s.acceptedTriggers ∧
    (handleSaveScore newId date s).laserActivationMap =
      s.laserActivationMap ∧
    (handleSaveScore newId date s).blinkingLasers = s.blinkingLasers ∧
    (handleSaveScore newId date s).reactivatingLasers =
      s.reactivatingLasers ∧
    (handleSaveScore newId date s).pendingBlink = s.pendingBlink ∧
    (handleSaveScore newId date s).pendingVisual = s.pendingVisual ∧
    (handleSaveScore newId date s).pendingReact = s.pendingReact ∧
    (handleSaveScore newId date s).pendingGameOver = s.pendingGameOver ∧
    (handleSaveScore newId date s).gameOverRef = s.gameOverRef ∧
    (handleSaveScore newId date s).gameOver = s.gameOver ∧
    (handleSaveScore newId date s).gameSuccess = s.gameSuccess := by
  unfold handleSaveScore addHighscore
  dsimp only
  split_ifs <;>
    exact ⟨rfl, rfl, rfl, rfl, rfl, rfl, rfl, rfl, rfl, rfl, rfl, rfl, rfl,
      rfl, rfl, rfl, rfl, rfl⟩

/-- The game settings snapshot is constant along every event. -/
theorem step_gameSettings (s : GameState) (e : GEvent) :
    (step s e).config.gameSettings = s.config.gameSettings := by
  cases e with
  | frame vs =>
      simp only [step]
      unfold processFrame
      split_ifs
      · rw [(foldl_game_untouched vs s.config.lasers s).1]
      · rw [(foldl_visual_visualOnly vs s.config.lasers s).1]
  | tick => simp only [step]; split_ifs <;> rfl
  | blinkEnd b => simp only [step]; rw [(blinkEndStep_fields b s).1]
  | visualEnd b => simp only [step]; rw [(visualEndStep_fields b s).1]
  | reactEnd b => simp only [step]; rw [(reactEndStep_fields b s).1]
  | runGameOver =>
      simp only [step]
      unfold runGameOverStep handleGameOver
      dsimp only
      split_ifs <;> rfl
  | startGame => simp only [step]; rw [(startGame_const s).1]
  | stopGame => simp only [step]; rw [(stopGame_fields s).1]
  | buzzer =>
      simp only [step]
      split_ifs
      · rw [(handleBuzzerPressed_fields s).1]
      · rfl
  | resetGame => rfl
  | closeGameOver => rfl
  | saveScore newId date => exact (handleSaveScore_fields newId date s).1

/-! ## C4 -/

/-- C4: the elapsed time advances by exactly 100 ms on a clock tick while
Running and not at all otherwise; no event but the tick (and the
session-boundary start/reset) changes it, so it is non-decreasing within
a session; and the instant start() completes its countdown the session is
Running with the clock at exactly 0. -/
theorem game_time_monotone_and_zero_at_start (s : GameState) (e : GEvent) :
    ((step s GEvent.tick).gameTime =
      if s.isGameRunning = true then s.gameTime + 100 else s.gameTime) ∧
    (e ≠ GEvent.tick → e ≠ GEvent.startGame → e ≠ GEvent.resetGame →
      (step s e).gameTime = s.gameTime) ∧
    (e ≠ GEvent.startGame → e ≠ GEvent.resetGame →
      s.gameTime ≤ (step s e).gameTime) ∧
    (s.isGameStarting = false → s.isAnyGameRunning = false →
      ((step s GEvent.startGame).gameTime = 0 ∧
       (step s GEvent.startGame).isGameRunning = true)) := by
  have htick : (step s GEvent.tick).gameTime =
      if s.isGameRunning = true then s.gameTime + 100 else s.gameTime := by
    simp only [step]
    split_ifs <;> rfl
  have hconst : e ≠ GEvent.tick → e ≠ GEvent.startGame →
      e ≠ GEvent.resetGame → (step s e).gameTime = s.gameTime := by
    intro h1 h2 h3
    cases e with
    | frame vs =>
        simp only [step]
        unfold processFrame
        split_ifs
        · exact (foldl_game_untouched vs s.config.lasers s).2.2.2.2.1
        · exact (foldl_visual_visualOnly vs s.config.lasers s).2.2.2.2.1
    | tick => exact absurd rfl h1
    | blinkEnd b => exact (blinkEndStep_fields b s).2.2.2.2.1
    | visualEnd b => exact (visualEndStep_fields b s).2.2.2.2.1
    | reactEnd b => exact (reactEndStep_fields b s).2.2.2.2.1
    | runGameOver =>
        simp only [step]
        unfold runGameOverStep handleGameOver
        dsimp only
        split_ifs <;> rfl
    | startGame => exact absurd rfl h2
    | stopGame => exact (stopGame_fields s).2.2.1
    | buzzer =>
        simp only [step]
        split_ifs
        · exact (handleBuzzerPressed_fields s).2.2.1
        · rfl
    | resetGame => exact absurd rfl h3
    | closeGameOver => rfl
    | saveScore newId date =>
        exact (handleSaveScore_fields newId date s).2.2.2.2.2.1
  refine ⟨htick, hconst, ?_, ?_⟩
  · intro h2 h3
    by_cases h1 : e = GEvent.tick
    · subst h1
      rw [htick]
      split_ifs <;> omega
    · rw [hconst h1 h2 h3]
  · intro hstarting hflag
    simp only [step]
    unfold startGame
    rw [if_neg (by rw [hstarting]; exact fun hc => absurd hc (by simp)),
      if_neg (by rw [hflag]; exact fun hc => absurd hc (by simp))]
    exact ⟨rfl, rfl⟩

/-- Witness for C4 at wArmed (running, tick adds 100; a stop keeps the
clock) and wIdle (a start lands Running at 0). -/
theorem game_time_witness :
    ((step wArmed GEvent.tick).gameTime =
      if wArmed.isGameRunning = true then wArmed.gameTime + 100
      else wArmed.gameTime) ∧
    (step wArmed GEvent.stopGame).gameTime = wArmed.gameTime ∧
    wArmed.gameTime ≤ (step wArmed GEvent.stopGame).gameTime ∧
    ((step wIdle GEvent.startGame).gameTime = 0 ∧
     (step wIdle GEvent.startGame).isGameRunning = true) := by
  refine ⟨(game_time_monotone_and_zero_at_start wArmed GEvent.stopGame).1,
    ?_, ?_, ?_⟩
  · exact (game_time_monotone_and_zero_at_start wArmed GEvent.stopGame).2.1
      (by decide) (by decide) (by decide)
  · exact (game_time_monotone_and_zero_at_start wArmed
      GEvent.stopGame).2.2.1 (by decide) (by decide)
  · exact (game_time_monotone_and_zero_at_start wIdle
      GEvent.stopGame).2.2.2 rfl rfl

/-! ## C6 -/

/-- A running session over wCfg with one deferred game-over pending. -/
def wOver : GameState :=
  { wArmed with pendingGameOver := 1, gameOverRef := true }

/-- C6: the global single-session flag is acquired by a start() that
proceeds and released by stop(), by the max-touch game-over path and by
reset(); a start() that finds the flag already held changes no engine
state at all (a warned no-op, not an error). -/
theorem global_flag_acquired_and_released (s : GameState) :
    (s.isAnyGameRunning = true → step s GEvent.startGame = s) ∧
    (s.isGameStarting = false → s.isAnyGameRunning = false →
      (step s GEvent.startGame).isAnyGameRunning = true) ∧
    (step s GEvent.stopGame).isAnyGameRunning = false ∧
    (0 < s.pendingGameOver →
      (step s GEvent.runGameOver).isAnyGameRunning = false) ∧
    (step s GEvent.resetGame).isAnyGameRunning = false := by
  refine ⟨?_, ?_, (stopGame_fields s).2.2.2.2.2.2.2.2.2.2.1, ?_, rfl⟩
  · intro hflag
    simp only [step]
    unfold startGame
    split_ifs <;> rfl
  · intro hstarting hflag
    simp only [step]
    unfold startGame
    rw [if_neg (by rw [hstarting]; exact fun hc => absurd hc (by simp)),
      if_neg (by rw [hflag]; exact fun hc => absurd hc (by simp))]
  · intro hpend
    simp only [step]
    unfold runGameOverStep handleGameOver
    dsimp only
    rw [if_pos hpend]

/-! ## C2 -/

/-- The acceptance path schedules the deferred game-over exactly when the
maximum is positive, the new count reaches it, and no game-over is
already in flight. -/
theorem handleLaserTriggered_schedule {s : GameState} {b : String}
    (h1 : s.isGameRunning = true) (h2 : s.reactivatingLasers b = false)
    (h3 : s.laserActivationMap b = true) :
    ((handleLaserTriggered b s).pendingGameOver = s.pendingGameOver + 1 ↔
      (0 < s.config.gameSettings.maxAllowedTouches ∧
       s.config.gameSettings.maxAllowedTouches ≤ s.triggeredCount + 1 ∧
       s.gameOverRef = false)) ∧
    (¬(0 < s.config.gameSettings.maxAllowedTouches ∧
       s.config.gameSettings.maxAllowedTouches ≤ s.triggeredCount + 1 ∧
       s.gameOverRef = false) →
      (handleLaserTriggered b s).pendingGameOver = s.pendingGameOver) := by
  unfold handleLaserTriggered
  dsimp only
  rw [if_neg (by rw [h1]; simp), if_neg (by rw [h2, h3]; simp)]
  split_ifs with hc
  · exact ⟨iff_of_true rfl hc, fun hn => absurd hc hn⟩
  · constructor
    · refine iff_of_false ?_ hc
      intro hcontra
      have hcontra' : s.pendingGameOver = s.pendingGameOver + 1 := hcontra
      omega
    · intro _; rfl

/-- The deferred game-over callback firing marks the run Finished with a
failure outcome and stops it. -/
theorem runGameOver_finishes {s : GameState} (h : 0 < s.pendingGameOver) :
    (step s GEvent.runGameOver).gameOver = true ∧
    (step s GEvent.runGameOver).gameSuccess = false ∧
    (step s GEvent.runGameOver).isGameRunning = false ∧
    (step s GEvent.runGameOver).pendingGameOver = s.pendingGameOver - 1 ∧
    (step s GEvent.runGameOver).gameOverRef = false := by
  simp only [step]
  unfold runGameOverStep handleGameOver
  dsimp only
  rw [if_pos h]
  exact ⟨rfl, rfl, rfl, rfl, rfl⟩

/-- The gameOverRef guard coupling: the number of deferred game-over
callbacks in flight is exactly one while gameOverRef is set, zero
otherwise. -/
def GoInv (s : GameState) : Prop :=
  s.pendingGameOver = if s.gameOverRef = true then 1 else 0

theorem goInv_of_same {s t : GameState}
    (h1 : t.pendingGameOver = s.pendingGameOver)
    (h2 : t.gameOverRef = s.gameOverRef) : GoInv s → GoInv t := by
  intro h
  unfold GoInv at h ⊢
  rw [h1, h2, h]

/-- The acceptance path either leaves the deferred-game-over bookkeeping
alone, or schedules while gameOverRef was clear and sets it. -/
theorem handleLaserTriggered_pendingRef (b : String) (s : GameState) :
    ((handleLaserTriggered b s).pendingGameOver = s.pendingGameOver ∧
     (handleLaserTriggered b s).gameOverRef = s.gameOverRef) ∨
    (s.gameOverRef = false ∧
     (handleLaserTriggered b s).pendingGameOver = s.pendingGameOver + 1 ∧
     (handleLaserTriggered b s).gameOverRef = true) := by
  unfold handleLaserTriggered
  dsimp only
  split_ifs with g1 g2 hc
  · exact Or.inl ⟨rfl, rfl⟩
  · exact Or.inl ⟨rfl, rfl⟩
  · exact Or.inr ⟨hc.2.2, rfl, rfl⟩
  · exact Or.inl ⟨rfl, rfl⟩

theorem handleLaserTriggered_goInv {b : String} {s : GameState}
    (h : GoInv s) : GoInv (handleLaserTriggered b s) := by
  rcases handleLaserTriggered_pendingRef b s with ⟨e1, e2⟩ | ⟨href, e1, e2⟩
  · exact goInv_of_same e1 e2 h
  · unfold GoInv at h ⊢
    rw [if_neg (by rw [href]; simp)] at h
    rw [e1, e2, if_pos rfl, h]

theorem processFrame_goInv (vs : List Reading) (s : GameState)
    (h : GoInv s) : GoInv (processFrame vs s) := by
  unfold processFrame
  split_ifs
  · have main : ∀ (ls : List LaserConf) (t : GameState), GoInv t →
        GoInv (ls.foldl (gameLaserStep vs) t) := by
      intro ls
      induction ls with
      | nil => intro t ht; exact ht
      | cons l ls ih =>
          intro t ht
          refine ih (gameLaserStep vs t l) ?_
          unfold gameLaserStep
          split_ifs
          · exact handleLaserTriggered_goInv ht
          · exact ht
          · exact ht
    exact main s.config.lasers s h
  · obtain hv := foldl_visual_visualOnly vs s.config.lasers s
    exact goInv_of_same hv.2.2.2.2.2.2.2.2.2.2.2.2.2.2.2.1
      hv.2.2.2.2.2.2.2.2.2.2.2.2.2.2.2.2 h

/-- The guard coupling is preserved by every event. -/
theorem step_goInv (s : GameState) (e : GEvent) (h : GoInv s) :
    GoInv (step s e) := by
  cases e with
  | frame vs => exact processFrame_goInv vs s h
  | tick =>
      refine goInv_of_same ?_ ?_ h <;>
        (simp only [step]; split_ifs <;> rfl)
  | blinkEnd b =>
      exact goInv_of_same (blinkEndStep_fields b s).2.2.2.2.2.2.2.2.1
        (blinkEndStep_fields b s).2.2.2.2.2.2.2.2.2.1 h
  | visualEnd b =>
      exact goInv_of_same (visualEndStep_fields b s).2.2.2.2.2.2.2.1
        (visualEndStep_fields b s).2.2.2.2.2.2.2.2.1 h
  | reactEnd b =>
      exact goInv_of_same (reactEndStep_fields b s).2.2.2.2.2.2.2.1
        (reactEndStep_fields b s).2.2.2.2.2.2.2.2.1 h
  | runGameOver =>
      by_cases hpend : 0 < s.pendingGameOver
      · have hfin := runGameOver_finishes hpend
        have h1 : s.pendingGameOver = 1 := by
          unfold GoInv at h
          by_cases href : s.gameOverRef = true
          · rw [if_pos href] at h; exact h
          · rw [if_neg href] at h; omega
        unfold GoInv
        rw [hfin.2.2.2.1, hfin.2.2.2.2, h1,
          if_neg (fun hc : false = true => absurd hc (by simp))]
      · rw [show step s GEvent.runGameOver = runGameOverStep s from rfl,
          show runGameOverStep s = s by
            unfold runGameOverStep; rw [if_neg hpend]]
        exact h
  | startGame =>
      exact goInv_of_same (startGame_const s).2.2.1 (startGame_const s).2.2.2 h
  | stopGame =>
      exact goInv_of_same (stopGame_fields s).2.2.2.2.2.2.2.1
        (stopGame_fields s).2.2.2.2.2.2.2.2.1 h
  | buzzer =>
      by_cases hrun : s.isGameRunning = true
      · rw [show step s GEvent.buzzer =
          (if s.isGameRunning = true then handleBuzzerPressed s else s)
          from rfl, if_pos hrun]
        exact goInv_of_same (handleBuzzerPressed_fields s).2.2.2.2.2.2.1
          (handleBuzzerPressed_fields s).2.2.2.2.2.2.2.1 h
      · rw [show step s GEvent.buzzer =
          (if s.isGameRunning = true then handleBuzzerPressed s else s)
          from rfl, if_neg hrun]
        exact h
  | resetGame => exact goInv_of_same rfl rfl h
  | closeGameOver => exact goInv_of_same rfl rfl h
  | saveScore newId date =>
      exact goInv_of_same
        (handleSaveScore_fields newId date s).2.2.2.2.2.2.2.2.2.2.2.2.2.2.1
        (handleSaveScore_fields newId date s).2.2.2.2.2.2.2.2.2.2.2.2.2.2.2.1
        h

/-- After a session has stopped with nothing in flight, no event but a
new start can restart it or schedule a game-over. -/
theorem step_stopped {s : GameState} {e : GEvent}
    (hr : s.isGameRunning = false) (hp : s.pendingGameOver = 0)
    (he : e ≠ GEvent.startGame) :
    (step s e).isGameRunning = false ∧ (step s e).pendingGameOver = 0 := by
  cases e with
  | frame vs =>
      simp only [step]
      unfold processFrame
      rw [if_neg (by rw [hr]; simp)]
      obtain hv := foldl_visual_visualOnly vs s.config.lasers s
      exact ⟨hv.2.1.trans hr, hv.2.2.2.2.2.2.2.2.2.2.2.2.2.2.2.1.trans hp⟩
  | tick =>
      simp only [step]
      rw [if_neg (by rw [hr]; simp)]
      exact ⟨hr, hp⟩
  | blinkEnd b =>
      exact ⟨(blinkEndStep_fields b s).2.1.trans hr,
        (blinkEndStep_fields b s).2.2.2.2.2.2.2.2.1.trans hp⟩
  | visualEnd b =>
      exact ⟨(visualEndStep_fields b s).2.1.trans hr,
        (visualEndStep_fields b s).2.2.2.2.2.2.2.1.trans hp⟩
  | reactEnd b =>
      exact ⟨(reactEndStep_fields b s).2.1.trans hr,
        (reactEndStep_fields b s).2.2.2.2.2.2.2.1.trans hp⟩
  | runGameOver =>
      rw [show step s GEvent.runGameOver = runGameOverStep s from rfl,
        show runGameOverStep s = s by
          unfold runGameOverStep; rw [if_neg (by omega)]]
      exact ⟨hr, hp⟩
  | startGame => exact absurd rfl he
  | stopGame =>
      exact ⟨(stopGame_fields s).2.2.2.2.2.2.2.2.2.1,
        (stopGame_fields s).2.2.2.2.2.2.2.1.trans hp⟩
  | buzzer =>
      rw [show step s GEvent.buzzer =
        (if s.isGameRunning = true then handleBuzzerPressed s else s)
        from rfl, if_neg (by rw [hr]; simp)]
      exact ⟨hr, hp⟩
  | resetGame => exact ⟨rfl, hp⟩
  | closeGameOver => exact ⟨rfl, hp⟩
  | saveScore newId date =>
      exact ⟨(handleSaveScore_fields newId date s).2.2.1.trans hr,
        (handleSaveScore_fields newId date s).2.2.2.2.2.2.2.2.2.2.2.2.2.2.1.trans
          hp⟩

/-- A stopped engine with nothing in flight never auto-finishes. -/
theorem autoFinish_stopped (es : List GEvent) :
    ∀ s : GameState, s.isGameRunning = false → s.pendingGameOver = 0 →
    GEvent.startGame ∉ es → autoFinishCount s es = 0 := by
  induction es with
  | nil => intro s _ _ _; rfl
  | cons e es ih =>
      intro s hr hp hmem
      have he : e ≠ GEvent.startGame := fun hc =>
        hmem (hc ▸ List.mem_cons_self e es)
      obtain ⟨hr', hp'⟩ := step_stopped hr hp he
      unfold autoFinishCount
      rw [if_neg (by rw [hp]; exact fun hc => absurd hc.2 (by omega)),
        ih (step s e) hr' hp' (fun hx => hmem (List.mem_cons_of_mem e hx))]

/-- Under the guard coupling, a trace without a new start fires the
deferred game-over at most once. -/
theorem autoFinish_le_one (es : List GEvent) :
    ∀ s : GameState, GoInv s → GEvent.startGame ∉ es →
    autoFinishCount s es ≤ 1 := by
  induction es with
  | nil => intro s _ _; exact Nat.zero_le 1
  | cons e es ih =>
      intro s hinv hmem
      have he : e ≠ GEvent.startGame := fun hc =>
        hmem (hc ▸ List.mem_cons_self e es)
      have hmem' : GEvent.startGame ∉ es := fun hx =>
        hmem (List.mem_cons_of_mem e hx)
      unfold autoFinishCount
      by_cases hfire : e = GEvent.runGameOver ∧ 0 < s.pendingGameOver
      · rw [if_pos hfire]
        obtain ⟨hee, hpend⟩ := hfire
        subst hee
        have hfin := runGameOver_finishes hpend
        have h1 : s.pendingGameOver = 1 := by
          unfold GoInv at hinv
          by_cases href : s.gameOverRef = true
          · rw [if_pos href] at hinv; exact hinv
          · rw [if_neg href] at hinv; omega
        have hp0 : (step s GEvent.runGameOver).pendingGameOver = 0 := by
          rw [hfin.2.2.2.1, h1]
        rw [autoFinish_stopped es (step s GEvent.runGameOver)
          hfin.2.2.1 hp0 hmem']
      · rw [if_neg hfire]
        simpa using ih (step s e) (step_goInv s e hinv) hmem'

/-- With maxAllowedTouches = 0 the acceptance path never schedules a
game-over. -/
theorem handleLaserTriggered_max0 {b : String} {s : GameState}
    (hm : s.config.gameSettings.maxAllowedTouches = 0) :
    (handleLaserTriggered b s).pendingGameOver = s.pendingGameOver := by
  unfold handleLaserTriggered
  dsimp only
  split_ifs with g1 g2 hc
  · rfl
  · rfl
  · rw [hm] at hc; exact absurd hc.1 (by omega)
  · rfl

theorem step_pending_max0 {s : GameState} {e : GEvent}
    (hm : s.config.gameSettings.maxAllowedTouches = 0)
    (hp : s.pendingGameOver = 0) : (step s e).pendingGameOver = 0 := by
  cases e with
  | frame vs =>
      simp only [step]
      unfold processFrame
      split_ifs
      · have main : ∀ (ls : List LaserConf) (t : GameState),
            t.config.gameSettings.maxAllowedTouches = 0 →
            t.pendingGameOver = 0 →
            (ls.foldl (gameLaserStep vs) t).pendingGameOver = 0 := by
          intro ls
          induction ls with
          | nil => intro t _ ht; exact ht
          | cons l ls ih =>
              intro t htm htp
              refine ih (gameLaserStep vs t l) ?_ ?_
              · rw [(gameLaserStep_untouched vs t l).1]; exact htm
              · unfold gameLaserStep
                split_ifs
                · rw [handleLaserTriggered_max0 htm]; exact htp
                · exact htp
                · exact htp
        exact main s.config.lasers s hm hp
      · exact (foldl_visual_visualOnly vs
          s.config.lasers s).2.2.2.2.2.2.2.2.2.2.2.2.2.2.2.1.trans hp
  | tick => simp only [step]; split_ifs <;> exact hp
  | blinkEnd b => exact (blinkEndStep_fields b s).2.2.2.2.2.2.2.2.1.trans hp
  | visualEnd b =>
      exact (visualEndStep_fields b s).2.2.2.2.2.2.2.1.trans hp
  | reactEnd b => exact (reactEndStep_fields b s).2.2.2.2.2.2.2.1.trans hp
  | runGameOver =>
      rw [show step s GEvent.runGameOver = runGameOverStep s from rfl,
        show runGameOverStep s = s by
          unfold runGameOverStep; rw [if_neg (by omega)]]
      exact hp
  | startGame => exact (startGame_const s).2.2.1.trans hp
  | stopGame => exact (stopGame_fields s).2.2.2.2.2.2.2.1.trans hp
  | buzzer =>
      simp only [step]
      split_ifs
      · exact (handleBuzzerPressed_fields s).2.2.2.2.2.2.1.trans hp
      · exact hp
  | resetGame => exact hp
  | closeGameOver => exact hp
  | saveScore newId date =>
      exact (handleSaveScore_fields newId date
        s).2.2.2.2.2.2.2.2.2.2.2.2.2.2.1.trans hp

/-- With maxAllowedTouches = 0 the engine never auto-finishes at all. -/
theorem autoFinish_max0 (es : List GEvent) :
    ∀ s : GameState, s.config.gameSettings.maxAllowedTouches = 0 →
    s.pendingGameOver = 0 → autoFinishCount s es = 0 := by
  induction es with
  | nil => intro s _ _; rfl
  | cons e es ih =>
      intro s hm hp
      unfold autoFinishCount
      rw [if_neg (by rw [hp]; exact fun hc => absurd hc.2 (by omega)),
        ih (step s e) (by rw [step_gameSettings]; exact hm)
          (step_pending_max0 hm hp)]

/-- wArmed one touch away from the two-touch maximum. -/
def wNear : GameState := { wArmed with triggeredCount := 1 }

/-- wArmed reconfigured with maxAllowedTouches = 0 (unlimited). -/
def wMax0 : GameState :=
  { wArmed with
    config :=
      { wCfg with
        gameSettings :=
          { maxAllowedTouches := 0, reactivateLasers := false,
            reactivationTimeSeconds := 5 } } }

/-- C2: an accepted trigger schedules the automatic Finished(Failure)
transition if and only if maxAllowedTouches is positive, the incremented
count reaches it, and no game-over is already in flight; the deferred
callback then stops the run with a failure outcome; with
maxAllowedTouches = 0 no automatic finish ever happens; and under the
gameOverRef coupling a session auto-finishes at most once, re-entrant
duplicate notifications included. -/
theorem auto_finish_iff_max_touches_reached
    (s : GameState) (b : String) (es : List GEvent) :
    (s.isGameRunning = true → s.reactivatingLasers b = false →
     s.laserActivationMap b = true →
     ((handleLaserTriggered b s).pendingGameOver = s.pendingGameOver + 1 ↔
       (0 < s.config.gameSettings.maxAllowedTouches ∧
        s.config.gameSettings.maxAllowedTouches ≤ s.triggeredCount + 1 ∧
        s.gameOverRef = false))) ∧
    (0 < s.pendingGameOver →
      ((step s GEvent.runGameOver).gameOver = true ∧
       (step s GEvent.runGameOver).gameSuccess = false ∧
       (step s GEvent.runGameOver).isGameRunning = false)) ∧
    (s.config.gameSettings.maxAllowedTouches = 0 → s.pendingGameOver = 0 →
      autoFinishCount s es = 0) ∧
    (s.pendingGameOver = (if s.gameOverRef = true then 1 else 0) →
      GEvent.startGame ∉ es → autoFinishCount s es ≤ 1) := by
  refine ⟨?_, ?_, ?_, ?_⟩
  · intro h1 h2 h3
    exact (handleLaserTriggered_schedule h1 h2 h3).1
  · intro hpend
    exact ⟨(runGameOver_finishes hpend).1, (runGameOver_finishes hpend).2.1,
      (runGameOver_finishes hpend).2.2.1⟩
  · intro hm hp
    exact autoFinish_max0 es s hm hp
  · intro hinv hmem
    exact autoFinish_le_one es s hinv hmem

/-- Witness for C2: at wNear (count 1, maximum 2) a trigger schedules
the game-over; at wOver the callback finishes with failure; with the
zero maximum of wMax0 a trace auto-finishes zero times; from wArmed any
start-free trace auto-finishes at most once. -/
theorem auto_finish_witness :
    ((handleLaserTriggered "1" wNear).pendingGameOver =
        wNear.pendingGameOver + 1 ↔
      (0 < wNear.config.gameSettings.maxAllowedTouches ∧
       wNear.config.gameSettings.maxAllowedTouches ≤
         wNear.triggeredCount + 1 ∧
       wNear.gameOverRef = false)) ∧
    ((step wOver GEvent.runGameOver).gameOver = true ∧
     (step wOver GEvent.runGameOver).gameSuccess = false ∧
     (step wOver GEvent.runGameOver).isGameRunning = false) ∧
    autoFinishCount wMax0 [GEvent.frame frameLow, GEvent.runGameOver] = 0 ∧
    autoFinishCount wArmed [GEvent.frame frameLow, GEvent.runGameOver]
      ≤ 1 := by
  refine ⟨(auto_finish_iff_max_touches_reached wNear "1" []).1 rfl rfl rfl,
    (auto_finish_iff_max_touches_reached wOver "1" []).2.1 (by decide),
    ?_, ?_⟩
  · exact (auto_finish_iff_max_touches_reached wMax0 "1"
      [GEvent.frame frameLow, GEvent.runGameOver]).2.2.1 rfl rfl
  · exact (auto_finish_iff_max_touches_reached wArmed "1"
      [GEvent.frame frameLow, GEvent.runGameOver]).2.2.2 rfl (by decide)

/-! ## C5 -/

/-- The C5 invariant: while the session is still running, a downed beam
stays inactive with no reactivation timeout scheduled. -/
def DownInv (b : String) (s : GameState) : Prop :=
  (s.laserActivationMap b = false ∧ s.pendingReact b = false) ∨
    s.isGameRunning = false

theorem downInv_of_same {b : String} {s t : GameState}
    (h1 : t.laserActivationMap b = s.laserActivationMap b)
    (h2 : t.pendingReact b = s.pendingReact b)
    (h3 : t.isGameRunning = s.isGameRunning) :
    DownInv b s → DownInv b t := by
  intro h
  rcases h with ⟨ha, hp⟩ | hr
  · exact Or.inl ⟨h1.trans ha, h2.trans hp⟩
  · exact Or.inr (h3.trans hr)

/-- With reactivation disabled, every event except the session-boundary
start/reset preserves the invariant. -/
theorem downInv_step {b : String} {s : GameState} {e : GEvent}
    (hre : s.config.gameSettings.reactivateLasers = false)
    (he1 : e ≠ GEvent.startGame) (he2 : e ≠ GEvent.resetGame)
    (h : DownInv b s) : DownInv b (step s e) := by
  cases e with
  | frame vs =>
      rcases h with ⟨ha, hp⟩ | hr
      · have hp' : (step s (GEvent.frame vs)).pendingReact b =
            s.pendingReact b := by
          simp only [step]
          unfold processFrame
          split_ifs
          · rw [(foldl_game_untouched vs s.config.lasers s).2.2.2.2.2.2.2.2.2.2.1]
          · rw [(foldl_visual_visualOnly vs s.config.lasers s).2.2.2.2.2.2.2.2.2.2.2.2.2.2.1]
        rcases processFrame_cases vs s b with ⟨_, e2⟩ | ⟨_, _, e4⟩
        · exact Or.inl ⟨e2.trans ha, hp'.trans hp⟩
        · rw [ha] at e4; exact absurd e4 (by simp)
      · refine Or.inr ?_
        simp only [step]
        unfold processFrame
        split_ifs with hrun
        · rw [hr] at hrun; exact absurd hrun (by simp)
        · rw [(foldl_visual_visualOnly vs s.config.lasers s).2.1]
          exact hr
  | tick =>
      refine downInv_of_same ?_ ?_ ?_ h <;>
        (simp only [step]; split_ifs <;> rfl)
  | blinkEnd i =>
      obtain ⟨hpr, _, _⟩ := blinkEndStep_reactOff (b := i) hre
      exact downInv_of_same
        (congrFun (blinkEndStep_fields i s).2.2.2.2.2.2.2.1 b)
        (congrFun hpr b) (blinkEndStep_fields i s).2.1 h
  | visualEnd i =>
      by_cases hrun : s.isGameRunning = true
      · exact downInv_of_same (congrFun (visualEndStep_running hrun) b)
          (congrFun (visualEndStep_fields i s).2.2.2.2.2.2.2.2.2.2.1 b)
          (visualEndStep_fields i s).2.1 h
      · refine Or.inr ?_
        rw [show step s (GEvent.visualEnd i) = visualEndStep i s from rfl,
          (visualEndStep_fields i s).2.1]
        simpa using hrun
  | reactEnd i =>
      rcases h with ⟨ha, hp⟩ | hr
      · by_cases hib : i = b
        · subst hib
          rw [show step s (GEvent.reactEnd i) = reactEndStep i s from rfl,
            reactEndStep_noPending hp]
          exact Or.inl ⟨ha, hp⟩
        · obtain ⟨e1, e2⟩ := reactEndStep_other
            (b := i) (i := b) (s := s) (fun hc => hib hc.symm)
          exact Or.inl ⟨e1.trans ha, e2.trans hp⟩
      · exact Or.inr ((reactEndStep_fields i s).2.1.trans hr)
  | runGameOver =>
      by_cases hpend : 0 < s.pendingGameOver
      · refine Or.inr ?_
        simp only [step]
        unfold runGameOverStep handleGameOver
        dsimp only
        rw [if_pos hpend]
      · rw [show step s GEvent.runGameOver = runGameOverStep s from rfl,
          show runGameOverStep s = s by unfold runGameOverStep; rw [if_neg hpend]]
        exact h
  | startGame => exact absurd rfl he1
  | stopGame => exact Or.inr (stopGame_fields s).2.2.2.2.2.2.2.2.2.1
  | buzzer =>
      by_cases hrun : s.isGameRunning = true
      · refine Or.inr ?_
        simp only [step]
        rw [if_pos hrun]
        exact (handleBuzzerPressed_fields s).2.2.2.2.2.2.2.2.1
      · rw [show step s GEvent.buzzer =
          (if s.isGameRunning = true then handleBuzzerPressed s else s)
          from rfl, if_neg hrun]
        exact h
  | resetGame => exact absurd rfl he2
  | closeGameOver => exact Or.inr rfl
  | saveScore newId date =>
      exact downInv_of_same
        (congrFun (handleSaveScore_fields newId date s).2.2.2.2.2.2.2.2.1 b)
        (congrFun
          (handleSaveScore_fields newId date s).2.2.2.2.2.2.2.2.2.2.2.2.2.1 b)
        (handleSaveScore_fields newId date s).2.2.1 h

/-- The invariant carried along a whole trace. -/
theorem downInv_run (es : List GEvent) :
    ∀ s : GameState, ∀ b : String,
    s.config.gameSettings.reactivateLasers = false →
    (∀ e ∈ es, e ≠ GEvent.startGame ∧ e ≠ GEvent.resetGame) →
    DownInv b s → DownInv b (run s es) := by
  induction es with
  | nil => intro s b _ _ h; exact h
  | cons e es ih =>
      intro s b hre hes h
      have he := hes e (List.mem_cons_self e es)
      refine ih (step s e) b ?_
        (fun x hx => hes x (List.mem_cons_of_mem e hx))
        (downInv_step hre he.1 he.2 h)
      rw [step_gameSettings]
      exact hre

/-- C5: with reactivateLasers disabled, a beam that went down during a
Running session is never re-armed while that session is still running;
the end-of-blink timeout only clears the blink flag, re-arms nothing and
schedules no reactivation. -/
theorem triggered_beam_stays_down_without_reactivation
    (s : GameState) (es : List GEvent) (b : String) :
    (s.config.gameSettings.reactivateLasers = false →
     (∀ e ∈ es, e ≠ GEvent.startGame ∧ e ≠ GEvent.resetGame) →
     s.laserActivationMap b = false → s.pendingReact b = false →
     (run s es).isGameRunning = true →
     (run s es).laserActivationMap b = false) ∧
    (s.config.gameSettings.reactivateLasers = false →
     ((step s (GEvent.blinkEnd b)).laserActivationMap =
        s.laserActivationMap ∧
      (step s (GEvent.blinkEnd b)).reactivatingLasers =
        s.reactivatingLasers ∧
      (step s (GEvent.blinkEnd b)).pendingReact = s.pendingReact ∧
      (0 < s.pendingBlink b →
        (step s (GEvent.blinkEnd b)).blinkingLasers b = false))) := by
  constructor
  · intro hre hes ha hp hrun
    rcases downInv_run es s b hre hes (Or.inl ⟨ha, hp⟩) with ⟨h1, _⟩ | h2
    · exact h1
    · rw [hrun] at h2; exact absurd h2 (by simp)
  · intro hre
    obtain ⟨e1, e2, e3⟩ := blinkEndStep_reactOff (b := b) hre
    exact ⟨(blinkEndStep_fields b s).2.2.2.2.2.2.2.1, e2, e1, e3⟩

/-- A running session over wCfg in which beam "1" is down with its blink
timeout still pending. -/
def wDown : GameState :=
  { wArmed with
    laserActivationMap := fun _ => false
    pendingBlink := fun i => if i = "1" then 1 else 0 }

/-- Witness for C5 at wDown over the trace tick, blink-end. -/
theorem triggered_beam_stays_down_witness :
    (run wDown [GEvent.tick, GEvent.blinkEnd "1"]).laserActivationMap "1" =
      false ∧
    ((step wDown (GEvent.blinkEnd "1")).laserActivationMap =
       wDown.laserActivationMap ∧
     (step wDown (GEvent.blinkEnd "1")).reactivatingLasers =
       wDown.reactivatingLasers ∧
     (step wDown (GEvent.blinkEnd "1")).pendingReact = wDown.pendingReact ∧
     (0 < wDown.pendingBlink "1" →
       (step wDown (GEvent.blinkEnd "1")).blinkingLasers "1" = false)) := by
  constructor
  · exact (triggered_beam_stays_down_without_reactivation wDown
      [GEvent.tick, GEvent.blinkEnd "1"] "1").1 rfl (by decide) rfl rfl
      (by decide)
  · exact (triggered_beam_stays_down_without_reactivation wDown
      [] "1").2 rfl

/-- Witness for C6: a start() against the held flag of wArmed is a
no-op; a start() from wIdle acquires the flag; stop, a pending game-over
and reset release it. -/
theorem global_flag_witness :
    step wArmed GEvent.startGame = wArmed ∧
    (step wIdle GEvent.startGame).isAnyGameRunning = true ∧
    (step wArmed GEvent.stopGame).isAnyGameRunning = false ∧
    (step wOver GEvent.runGameOver).isAnyGameRunning = false ∧
    (step wArmed GEvent.resetGame).isAnyGameRunning = false := by
  refine ⟨(global_flag_acquired_and_released wArmed).1 rfl,
    (global_flag_acquired_and_released wIdle).2.1 rfl rfl,
    (global_flag_acquired_and_released wArmed).2.2.1,
    (global_flag_acquired_and_released wOver).2.2.2.1 (by decide),
    (global_flag_acquired_and_released wArmed).2.2.2.2⟩

/-! ## C8 -/

/-- C8: a commit with an empty or whitespace-only player name is
rejected without any mutation at all: the engine state, the highscore
list and every other configuration field are exactly as before, and the
handler returns normally. -/
theorem save_score_rejects_blank_name (s : GameState)
    (newId date : String) (h : jsTrim s.playerName = "") :
    step s (GEvent.saveScore newId date) = s := by
  simp only [step]
  unfold handleSaveScore
  rw [if_pos h]

/-- The idle engine with a whitespace-only name typed into the save
dialog. -/
def wBlank : GameState :=
  { wIdle with playerName := "   ", showSaveScore := true }

/-- Witness for C8 at wBlank. -/
theorem save_score_rejects_blank_name_witness :
    jsTrim wBlank.playerName = "" ∧
    step wBlank (GEvent.saveScore "99" "2025-01-01") = wBlank :=
  ⟨rfl, save_score_rejects_blank_name wBlank "99" "2025-01-01" rfl⟩

/-! ## C9 -/

/-- C9: deleteAllHighscores empties the highscore list and leaves the
lasers, game settings, Arduino settings and sound settings untouched. -/
theorem delete_all_highscores_only_clears_highscores
    (c : LaserConfigState) :
    (deleteAllHighscores c).highscores = [] ∧
    (deleteAllHighscores c).lasers = c.lasers ∧
    (deleteAllHighscores c).gameSettings = c.gameSettings ∧
    (deleteAllHighscores c).arduinoSettings = c.arduinoSettings ∧
    (deleteAllHighscores c).soundSettings = c.soundSettings :=
  ⟨rfl, rfl, rfl, rfl, rfl⟩

/-! ## C10 -/

/-- The addLaser index-search loop, given enough fuel to reach a free
index, lands on a free index having stepped over used ones only. -/
theorem freeIndexLoop_spec (used : List Nat) :
    ∀ (fuel n : Nat),
    (∃ k, n ≤ k ∧ k < n + fuel ∧ k ∉ used) →
    freeIndexLoop used fuel n ∉ used ∧
    n ≤ freeIndexLoop used fuel n ∧
    (∀ m, n ≤ m → m < freeIndexLoop used fuel n → m ∈ used) := by
  intro fuel
  induction fuel with
  | zero =>
      intro n hex
      obtain ⟨k, h1, h2, _⟩ := hex
      omega
  | succ fuel ih =>
      intro n hex
      by_cases hn : n ∈ used
      · have hex' : ∃ k, n + 1 ≤ k ∧ k < n + 1 + fuel ∧ k ∉ used := by
          obtain ⟨k, h1, h2, h3⟩ := hex
          refine ⟨k, ?_, by omega, h3⟩
          rcases Nat.eq_or_lt_of_le h1 with heq | hlt
          · exact absurd (heq ▸ hn) h3
          · omega
        obtain ⟨r1, r2, r3⟩ := ih (n + 1) hex'
        have hloop : freeIndexLoop used (fuel + 1) n =
            freeIndexLoop used fuel (n + 1) := by
          show (if n ∈ used then freeIndexLoop used fuel (n + 1) else n) = _
          rw [if_pos hn]
        rw [hloop]
        refine ⟨r1, by omega, ?_⟩
        intro m hm1 hm2
        rcases Nat.eq_or_lt_of_le hm1 with heq | hlt
        · exact heq ▸ hn
        · exact r3 m hlt hm2
      · have hloop : freeIndexLoop used (fuel + 1) n = n := by
          show (if n ∈ used then freeIndexLoop used fuel (n + 1) else n) = _
          rw [if_neg hn]
        rw [hloop]
        exact ⟨hn, Nat.le_refl n, fun m hm1 hm2 => absurd hm1 (by omega)⟩

/-- Pigeonhole: among 0..used.length there is an index not in used. -/
theorem exists_free_index (used : List Nat) :
    ∃ k, 0 ≤ k ∧ k < 0 + (used.length + 1) ∧ k ∉ used := by
  by_contra h
  push_neg at h
  have hsub : Finset.range (used.length + 1) ⊆ used.toFinset := by
    intro k hk
    rw [List.mem_toFinset]
    exact h k (Nat.zero_le k) (by simpa using Finset.mem_range.mp hk)
  have hcard := Finset.card_le_card hsub
  rw [Finset.card_range] at hcard
  have hlen := used.toFinset_card_le
  omega

/-- The index addLaser assigns is the smallest one not in use. -/
theorem firstFreeSensorIndex_spec (used : List Nat) :
    firstFreeSensorIndex used ∉ used ∧
    ∀ m < firstFreeSensorIndex used, m ∈ used := by
  obtain ⟨h1, _, h3⟩ :=
    freeIndexLoop_spec used (used.length + 1) 0 (exists_free_index used)
  exact ⟨h1, fun m hm => h3 m (Nat.zero_le m) hm⟩

/-- C10: addLaser appends one laser whose order is the previous laser
count and whose sensorIndex is the smallest non-negative index no
existing laser uses; in particular pairwise-distinct sensor indices stay
pairwise distinct. -/
theorem addLaser_appends_with_smallest_free_index
    (c : LaserConfigState) (newId : String) :
    ((addLaser c newId).lasers = c.lasers ++
      [{ id := newId,
         name := "Laser " ++ toString (c.lasers.length + 1),
         sensitivity := 50,
         order := c.lasers.length,
         enabled := true,
         sensorIndex :=
           firstFreeSensorIndex
             (c.lasers.map (fun l => l.sensorIndex)) }]) ∧
    (firstFreeSensorIndex (c.lasers.map (fun l => l.sensorIndex)) ∉
      c.lasers.map (fun l => l.sensorIndex)) ∧
    (∀ m < firstFreeSensorIndex (c.lasers.map (fun l => l.sensorIndex)),
      m ∈ c.lasers.map (fun l => l.sensorIndex)) ∧
    ((c.lasers.map (fun l => l.sensorIndex)).Nodup →
      ((addLaser c newId).lasers.map (fun l => l.sensorIndex)).Nodup) := by
  refine ⟨rfl, (firstFreeSensorIndex_spec _).1,
    (firstFreeSensorIndex_spec _).2, ?_⟩
  intro hnd
  have hfree := (firstFreeSensorIndex_spec
    (c.lasers.map (fun l => l.sensorIndex))).1
  unfold addLaser
  dsimp only
  rw [List.map_append]
  refine List.Nodup.append hnd (List.nodup_singleton _) ?_
  intro a ha hb
  simp only [List.map_cons, List.map_nil, List.mem_singleton] at hb
  rw [hb] at ha
  exact hfree ha

/-- Witness for C10 at the default three-laser configuration: the new
laser takes index 3 next to the distinct indices 0,1,2, which stay
distinct. -/
theorem addLaser_smallest_free_index_witness :
    ((addLaser defaultLaserConfig "42").lasers.map
      (fun l => l.sensorIndex)).Nodup ∧
    (firstFreeSensorIndex
      (defaultLaserConfig.lasers.map (fun l => l.sensorIndex)) ∉
      defaultLaserConfig.lasers.map (fun l => l.sensorIndex)) := by
  refine ⟨(addLaser_appends_with_smallest_free_index defaultLaserConfig
    "42").2.2.2 (by decide),
    (addLaser_appends_with_smallest_free_index defaultLaserConfig
      "42").2.1⟩

end LazerMazer
